import Mathlib

/-!
Verification development for the "parushini" agent-based life simulation.

The Python sources are shallowly embedded: Python floats are modelled as
exact rationals (`ℚ`), mutable objects become explicit state passing, the
ambient random generator (`random.random`, `random.uniform`) becomes an
explicit list of draws threaded through every stochastic function, and
Python dicts become association lists with Python's insertion-order and
overwrite semantics.  Every definition follows the corresponding Python
function statement by statement; file and line references are given in the
doc comments.
-/

namespace Parushini

/-! ### Numeric helpers -/

/-- Model of `simulator.clamp` (src/core/simulator.py:104) with its default
bounds, and of the ubiquitous `max(0.0, min(100.0, x))` pattern. -/
def clamp (v : ℚ) : ℚ := max 0 (min 100 v)

/-- Random source: the sequence of unit-interval draws the Python `random`
module would produce.  An exhausted list yields 0 (irrelevant to the claims,
which quantify over the draw sequence). -/
abbrev RNG := List ℚ

/-- Model of one call to `random.random()`. -/
def nextDraw : RNG → ℚ × RNG
  | [] => (0, [])
  | d :: rest => (d, rest)

/-- Model of `random.uniform(lo, hi)`: consumes one unit draw `u` and
returns `lo + (hi - lo) * u`. -/
def uniformDraw (lo hi : ℚ) (r : RNG) : ℚ × RNG :=
  let d := nextDraw r
  (lo + (hi - lo) * d.1, d.2)

/-- Rounding used by Python's `"{:.0f}"` float format: round half to even. -/
def roundHalfEven (q : ℚ) : ℤ :=
  let f := ⌊q⌋
  if 1 / 2 < q - (f : ℚ) then f + 1
  else if q - (f : ℚ) < 1 / 2 then f
  else if f % 2 = 0 then f else f + 1

/-- Rendering of a numeric value via Python's `"{:.0f}"` format. -/
def formatQ0 (q : ℚ) : String := toString (roundHalfEven q)

/-! ### Association-list dictionaries (Python `dict` semantics) -/

/-- Lookup in an association list (first match; Python dict keys are unique). -/
def assocLookup {β : Type} : List (String × β) → String → Option β
  | [], _ => none
  | p :: rest, l => if p.1 = l then some p.2 else assocLookup rest l

/-- Python `d[k] = v`: overwrite in place if the key exists, else append. -/
def dictInsert {κ β : Type} [DecidableEq κ] : List (κ × β) → κ → β → List (κ × β)
  | [], k, v => [(k, v)]
  | p :: rest, k, v => if p.1 = k then (k, v) :: rest else p :: dictInsert rest k v

/-- Python `d.setdefault(k, []).append(v)` on a dict of lists. -/
def dictAppend {κ : Type} [DecidableEq κ] : List (κ × List String) → κ → String → List (κ × List String)
  | [], k, v => [(k, [v])]
  | p :: rest, k, v => if p.1 = k then (p.1, p.2 ++ [v]) :: rest else p :: dictAppend rest k v

/-- Python `d.get(k, [])` on a dict of lists. -/
def dictEntries {κ : Type} [DecidableEq κ] : List (κ × List String) → κ → List String
  | [], _ => []
  | p :: rest, k => if p.1 = k then p.2 else dictEntries rest k

/-! ### Data model (src/agents/agent.py, src/agents/archetypes.py) -/

/-- Model of `AgentMemory` (src/agents/agent.py:20-38). -/
structure AgentMemory where
  trust : ℚ := 50
  attraction : ℚ := 50
  familiarity : ℚ := 0
  last_interaction_type : Option String := none
  last_result : Option String := none
  last_time : Option ℕ := none

/-- Default-constructed `AgentMemory()`. -/
def defaultAgentMemory : AgentMemory := {}

/-- Snapshot dict produced by `Agent._capture_state_snapshot`
(src/agents/agent.py:188-198). -/
structure StateSnapshot where
  physical : ℚ
  love : ℚ
  career : ℚ
  social : ℚ
  intelligence : ℚ
  energy : ℚ
  trauma_level : ℚ

/-- Model of `Archetype` (src/agents/archetypes.py:13-47). -/
structure Archetype where
  name : String
  label : String
  love_orientation : ℚ
  drive : ℚ
  sociability : ℚ
  stability : ℚ
  curiosity : ℚ
  creativity : ℚ
  hardworking : ℚ
  intelligence_base : ℚ
  warmth : ℚ
  impulse : ℚ
  trauma_sensitivity : ℚ
  memory_depth : ℚ

/-- Model of `Agent` (src/agents/agent.py:41-98).  The purely narrative
constants (`soul_note`, `personality_summary`, `initial_goals`) are never
read by the simulation logic and are omitted. -/
structure Agent where
  name : String
  label : String
  love_orientation : ℚ
  drive : ℚ
  sociability : ℚ
  stability : ℚ
  curiosity : ℚ
  creativity : ℚ
  hardworking : ℚ
  intelligence_base : ℚ
  warmth : ℚ
  impulse : ℚ
  trauma_sensitivity : ℚ
  memory_depth : ℚ
  destiny_seed : ℚ := 0.5
  destiny_blessing : ℚ := 0
  locked_action_domain : Option String := none
  physical : ℚ := 50
  love : ℚ := 50
  career : ℚ := 50
  social : ℚ := 50
  intelligence : ℚ := 50
  energy : ℚ := 50
  trauma_level : ℚ := 0
  desire_love : ℚ := 0
  desire_career : ℚ := 0
  desire_social : ℚ := 0
  desire_physical : ℚ := 0
  desire_learning : ℚ := 0
  desire_rest : ℚ := 0
  memory : List (String × AgentMemory) := []
  luck_enabled : Bool := true
  diary_log : List (ℕ × String) := []
  last_state_snapshot : Option StateSnapshot := none

/-- Model of `Agent._capture_state_snapshot` (src/agents/agent.py:188). -/
def capture_state_snapshot (a : Agent) : StateSnapshot :=
  { physical := a.physical, love := a.love, career := a.career, social := a.social,
    intelligence := a.intelligence, energy := a.energy, trauma_level := a.trauma_level }

/-- Model of `AgentMemory` field updates inside `Agent.update_memory_for`
(src/agents/agent.py:173-186): deltas are clamped into [0,100], the history
fields are overwritten only when the corresponding argument is not `None`. -/
def apply_memory_deltas (m : AgentMemory) (trust_delta attraction_delta familiarity_delta : ℚ)
    (interaction_type result : Option String) (current_time : Option ℕ) : AgentMemory :=
  { m with
    trust := clamp (m.trust + trust_delta)
    attraction := clamp (m.attraction + attraction_delta)
    familiarity := clamp (m.familiarity + familiarity_delta)
    last_interaction_type := match interaction_type with
      | some v => some v
      | none => m.last_interaction_type
    last_result := match result with
      | some v => some v
      | none => m.last_result
    last_time := match current_time with
      | some v => some v
      | none => m.last_time }

/-- Model of `Agent.update_memory_for` (src/agents/agent.py:148-186): a
missing entry is first created with default values (appended, preserving
dict insertion order), then the entry is updated in place. -/
def update_memory_for (a : Agent) (other_label : String)
    (trust_delta attraction_delta familiarity_delta : ℚ)
    (interaction_type result : Option String) (current_time : Option ℕ) : Agent :=
  let mem0 := match assocLookup a.memory other_label with
    | some _ => a.memory
    | none => a.memory ++ [(other_label, defaultAgentMemory)]
  { a with memory := mem0.map (fun p =>
      if p.1 = other_label then
        (p.1, apply_memory_deltas p.2 trust_delta attraction_delta familiarity_delta
          interaction_type result current_time)
      else p) }

/-! ### Destiny system (src/logic/destiny.py) -/

/-- Model of `set_destiny_strength` (src/logic/destiny.py:15-18): returns the
value stored into the module-global `DESTINY_STRENGTH`.  The global is
threaded through the remaining functions as an explicit `ds` parameter. -/
def set_destiny_strength (value : ℚ) : ℚ := max 0 (min 100 value)

/-- Model of `get_destiny_bias` (src/logic/destiny.py:21-26). -/
def get_destiny_bias (ds : ℚ) (a : Agent) : ℚ :=
  let base := max 0 (min 1 (a.destiny_seed + a.destiny_blessing))
  let bias := base * (ds / 100)
  max 0 (min 1.5 bias)

/-- Model of `apply_destiny_bias` (src/logic/destiny.py:29-33). -/
def apply_destiny_bias (ds : ℚ) (a : Agent) (value : ℚ) : ℚ :=
  let bias := get_destiny_bias ds a
  let adjustment := (bias - 0.5) * 8
  clamp (value + adjustment)

/-! ### Desire engine (src/logic/desires.py) -/

def theme_romance : String := "ROMANCE"
def theme_career : String := "CAREER"
def theme_career_hustle : String := "CAREER_HUSTLE"
def theme_chaos : String := "CHAOS"
def theme_self_help : String := "SELF_HELP"
def theme_science : String := "SCIENCE"
def theme_curiosity : String := "CURIOSITY"

/-- Model of `update_agent_desires` (src/logic/desires.py:11-109): raw
desire formulas, then the theme bonus if/elif chain, then clamping of all
six desires into [0,100]. -/
def update_agent_desires (a : Agent) (global_theme : String) : Agent :=
  let love_deficit := max 0 (100 - a.love)
  let career_deficit := max 0 (100 - a.career)
  let social_deficit := max 0 (100 - a.social)
  let physical_deficit := max 0 (100 - a.physical)
  let intelligence_deficit := max 0 (100 - a.intelligence)
  let energy_factor := (100 - a.energy) / 100
  let trauma_factor := a.trauma_level / 100
  let stability_factor := (10 - a.stability) / 10
  let a1 := { a with
    desire_love := a.love_orientation * 5 + love_deficit * 0.3 - trauma_factor * 20
    desire_career := a.drive * 5 + career_deficit * 0.3
    desire_social := a.sociability * 5 + social_deficit * 0.3
    desire_physical := physical_deficit * 0.4
    desire_learning := a.curiosity * 5 + intelligence_deficit * 0.3
    desire_rest := energy_factor * 40 + trauma_factor * 30 + stability_factor * 20 }
  let theme_bonus : ℚ := 15
  let a2 :=
    if global_theme = theme_romance then
      { a1 with desire_love := a1.desire_love + theme_bonus }
    else if global_theme = theme_career ∨ global_theme = theme_career_hustle then
      { a1 with desire_career := a1.desire_career + theme_bonus }
    else if global_theme = theme_chaos then
      { a1 with
        desire_love := a1.desire_love + theme_bonus * 0.5
        desire_career := a1.desire_career + theme_bonus * 0.5
        desire_social := a1.desire_social + theme_bonus * 0.5
        desire_rest := a1.desire_rest + theme_bonus * 0.7 }
    else if global_theme = theme_self_help then
      { a1 with
        desire_learning := a1.desire_learning + theme_bonus
        desire_physical := a1.desire_physical + theme_bonus }
    else if global_theme = theme_science ∨ global_theme = theme_curiosity then
      { a1 with desire_learning := a1.desire_learning + theme_bonus }
    else a1
  { a2 with
    desire_love := clamp a2.desire_love
    desire_career := clamp a2.desire_career
    desire_social := clamp a2.desire_social
    desire_physical := clamp a2.desire_physical
    desire_learning := clamp a2.desire_learning
    desire_rest := clamp a2.desire_rest }

/-! ### Actions (src/logic/actions.py) -/

/-- Model of `ActionType` (src/logic/actions.py:15-31). -/
inductive ActionType where
  | DEEP_WORK
  | DEEP_RELATIONSHIP
  | BIG_SOCIAL_EVENT
  | DEEP_STUDY
  | MAJOR_REST
  | HEALTH_PUSH
  | LIGHT_SOCIAL
  | LIGHT_EXERCISE
  | CASUAL_DATE
  | CASUAL_LEARNING
  | HOBBY
  | MINOR_REST
deriving DecidableEq

/-- The `.value` string of each `ActionType` member. -/
def action_type_value : ActionType → String
  | .DEEP_WORK => "DEEP_WORK"
  | .DEEP_RELATIONSHIP => "DEEP_RELATIONSHIP"
  | .BIG_SOCIAL_EVENT => "BIG_SOCIAL_EVENT"
  | .DEEP_STUDY => "DEEP_STUDY"
  | .MAJOR_REST => "MAJOR_REST"
  | .HEALTH_PUSH => "HEALTH_PUSH"
  | .LIGHT_SOCIAL => "LIGHT_SOCIAL"
  | .LIGHT_EXERCISE => "LIGHT_EXERCISE"
  | .CASUAL_DATE => "CASUAL_DATE"
  | .CASUAL_LEARNING => "CASUAL_LEARNING"
  | .HOBBY => "HOBBY"
  | .MINOR_REST => "MINOR_REST"

/-- Result of `value.replace('_', ' ').title()` for each action type. -/
def action_type_display : ActionType → String
  | .DEEP_WORK => "Deep Work"
  | .DEEP_RELATIONSHIP => "Deep Relationship"
  | .BIG_SOCIAL_EVENT => "Big Social Event"
  | .DEEP_STUDY => "Deep Study"
  | .MAJOR_REST => "Major Rest"
  | .HEALTH_PUSH => "Health Push"
  | .LIGHT_SOCIAL => "Light Social"
  | .LIGHT_EXERCISE => "Light Exercise"
  | .CASUAL_DATE => "Casual Date"
  | .CASUAL_LEARNING => "Casual Learning"
  | .HOBBY => "Hobby"
  | .MINOR_REST => "Minor Rest"

/-- Result of `value.title()` (underscores kept) for each action type. -/
def action_type_title : ActionType → String
  | .DEEP_WORK => "Deep_Work"
  | .DEEP_RELATIONSHIP => "Deep_Relationship"
  | .BIG_SOCIAL_EVENT => "Big_Social_Event"
  | .DEEP_STUDY => "Deep_Study"
  | .MAJOR_REST => "Major_Rest"
  | .HEALTH_PUSH => "Health_Push"
  | .LIGHT_SOCIAL => "Light_Social"
  | .LIGHT_EXERCISE => "Light_Exercise"
  | .CASUAL_DATE => "Casual_Date"
  | .CASUAL_LEARNING => "Casual_Learning"
  | .HOBBY => "Hobby"
  | .MINOR_REST => "Minor_Rest"

/-- Model of `PlannedAction` (src/logic/actions.py:34-48). -/
structure PlannedAction where
  actor_label : String
  action_type : ActionType
  is_big : Bool
  target_labels : Option (List String) := none

/-- The four interaction action types (src/logic/interactions.py:79-84 and
src/logic/decisions.py:150-155 use the same set). -/
def interactionActionTypes : List ActionType :=
  [ActionType.DEEP_RELATIONSHIP, ActionType.BIG_SOCIAL_EVENT,
   ActionType.CASUAL_DATE, ActionType.LIGHT_SOCIAL]

/-- The romantic action pair `{DEEP_RELATIONSHIP, CASUAL_DATE}`. -/
def romanticActionTypes : List ActionType :=
  [ActionType.DEEP_RELATIONSHIP, ActionType.CASUAL_DATE]

/-- The social (non-romantic) pair `{BIG_SOCIAL_EVENT, LIGHT_SOCIAL}`. -/
def socialOnlyActionTypes : List ActionType :=
  [ActionType.BIG_SOCIAL_EVENT, ActionType.LIGHT_SOCIAL]

/-- Solo action types (src/logic/actions.py:72-81). -/
def soloActionTypes : List ActionType :=
  [ActionType.DEEP_WORK, ActionType.DEEP_STUDY, ActionType.MAJOR_REST,
   ActionType.HEALTH_PUSH, ActionType.LIGHT_EXERCISE, ActionType.CASUAL_LEARNING,
   ActionType.HOBBY, ActionType.MINOR_REST]

/-- Model of `_apply_big_solo_action` (src/logic/actions.py:98-119). -/
def apply_big_solo_action (a : Agent) (t : ActionType) : Agent :=
  if t = ActionType.DEEP_WORK then
    { a with career := clamp (a.career + 15), energy := clamp (a.energy - 12) }
  else if t = ActionType.DEEP_STUDY then
    { a with intelligence := clamp (a.intelligence + 12), career := clamp (a.career + 5), energy := clamp (a.energy - 10) }
  else if t = ActionType.MAJOR_REST then
    { a with energy := clamp (a.energy + 20), physical := clamp (a.physical + 3) }
  else if t = ActionType.HEALTH_PUSH then
    { a with physical := clamp (a.physical + 12), energy := clamp (a.energy - 10) }
  else a

/-- Model of `_apply_small_solo_action` (src/logic/actions.py:122-143). -/
def apply_small_solo_action (a : Agent) (t : ActionType) : Agent :=
  if t = ActionType.LIGHT_EXERCISE then
    { a with physical := clamp (a.physical + 5), energy := clamp (a.energy - 4) }
  else if t = ActionType.CASUAL_LEARNING then
    { a with intelligence := clamp (a.intelligence + 5), energy := clamp (a.energy - 3) }
  else if t = ActionType.HOBBY then
    { a with social := clamp (a.social + 4), career := clamp (a.career + 2), energy := clamp (a.energy - 2) }
  else if t = ActionType.MINOR_REST then
    { a with energy := clamp (a.energy + 8), physical := clamp (a.physical + 1) }
  else a

/-- Model of `apply_solo_action_effects` (src/logic/actions.py:51-95):
actions with a non-empty target list are skipped (Python truthiness of
`action.target_labels`), as are non-solo action types. -/
def apply_solo_action_effects (a : Agent) (actions : List PlannedAction) : Agent :=
  actions.foldl (fun g act =>
    match act.target_labels with
    | some (_ :: _) => g
    | _ =>
      if act.action_type ∈ soloActionTypes then
        if act.is_big then apply_big_solo_action g act.action_type
        else apply_small_solo_action g act.action_type
      else g) a

/-! ### Decisions (src/logic/decisions.py) -/

/-- Stable descending comparison on `(name, value)` pairs: exactly the
behaviour of Python's stable `sorted(..., key=lambda x: x[1], reverse=True)`
and `list.sort(key=lambda x: x[1], reverse=True)` —
`List.insertionSort` with this relation is a stable sort that orders by
value descending (`orderedInsert` places an element before the first
existing element whose value is less than or equal to its own only when the
new element comes earlier in the original list, since `insertionSort`
inserts front elements last... it inserts each element before the first
element `b` with `desireGE a b`, i.e. before strictly-smaller *and* equal
values of later-inserted elements, preserving first-encountered order). -/
def desireGE (x y : String × ℚ) : Prop := y.2 ≤ x.2

instance : DecidableRel desireGE := fun x y => inferInstanceAs (Decidable (y.2 ≤ x.2))

instance : IsTotal (String × ℚ) desireGE := ⟨fun a b => le_total b.2 a.2⟩

instance : IsTrans (String × ℚ) desireGE := ⟨fun _ _ _ hab hbc => le_trans hbc hab⟩

def dom_love : String := "love"
def dom_career : String := "career"
def dom_social : String := "social"
def dom_physical : String := "physical"
def dom_learning : String := "learning"
def dom_rest : String := "rest"

/-- The keys of the `desires` dict in `plan_agent_actions`
(src/logic/decisions.py:39-46), in insertion order. -/
def domain_keys : List String :=
  [dom_love, dom_career, dom_social, dom_physical, dom_learning, dom_rest]

/-- The `desires` dict of `plan_agent_actions` (src/logic/decisions.py:39-46):
every desire is passed through the destiny bias before ranking. -/
def biased_desire_pairs (ds : ℚ) (a : Agent) : List (String × ℚ) :=
  [(dom_love, apply_destiny_bias ds a a.desire_love),
   (dom_career, apply_destiny_bias ds a a.desire_career),
   (dom_social, apply_destiny_bias ds a a.desire_social),
   (dom_physical, apply_destiny_bias ds a a.desire_physical),
   (dom_learning, apply_destiny_bias ds a a.desire_learning),
   (dom_rest, apply_destiny_bias ds a a.desire_rest)]

/-- Model of `_desire_to_big_action` (src/logic/decisions.py:99-109),
including the `.get(..., MAJOR_REST)` default. -/
def desire_to_big_action (desire_name : String) : ActionType :=
  if desire_name = dom_love then ActionType.DEEP_RELATIONSHIP
  else if desire_name = dom_career then ActionType.DEEP_WORK
  else if desire_name = dom_social then ActionType.BIG_SOCIAL_EVENT
  else if desire_name = dom_physical then ActionType.HEALTH_PUSH
  else if desire_name = dom_learning then ActionType.DEEP_STUDY
  else if desire_name = dom_rest then ActionType.MAJOR_REST
  else ActionType.MAJOR_REST

/-- Model of `_desire_to_small_action` (src/logic/decisions.py:112-122),
including the `.get(..., MINOR_REST)` default. -/
def desire_to_small_action (desire_name : String) : ActionType :=
  if desire_name = dom_love then ActionType.CASUAL_DATE
  else if desire_name = dom_career then ActionType.HOBBY
  else if desire_name = dom_social then ActionType.LIGHT_SOCIAL
  else if desire_name = dom_physical then ActionType.LIGHT_EXERCISE
  else if desire_name = dom_learning then ActionType.CASUAL_LEARNING
  else if desire_name = dom_rest then ActionType.MINOR_REST
  else ActionType.MINOR_REST

/-- First key of a sorted desire list (`sorted_desires[0][0]`); the list is
always non-empty in the source, so the `[]` case is unreachable. -/
def head_name : List (String × ℚ) → String
  | [] => ""
  | p :: _ => p.1

/-- The small-action selection loop of `plan_agent_actions`
(src/logic/decisions.py:67-82): scan the remaining desires in order,
skipping used domains, until 2 small actions are picked. -/
def small_loop_names : List (String × ℚ) → List String → ℕ → List String
  | [], _, _ => []
  | p :: rest, used, picked =>
    if 2 ≤ picked then []
    else if p.1 ∈ used then small_loop_names rest used picked
    else p.1 :: small_loop_names rest (p.1 :: used) (picked + 1)

/-- Model of `plan_agent_actions` (src/logic/decisions.py:18-96).  The
Python truthiness test `locked_domain and locked_domain in desires` is the
membership test in `domain_keys` (the empty string is not a key).  The
defensive `while` loop at lines 85-94 pops from the front of
`remaining_desires`, modelled by `List.take` of the shortfall. -/
def plan_agent_actions (ds : ℚ) (a : Agent) : List PlannedAction :=
  let desires := biased_desire_pairs ds a
  let sorted_desires := List.insertionSort desireGE desires
  let top0 := head_name sorted_desires
  let top_desire := match a.locked_action_domain with
    | some d => if d ∈ domain_keys then d else top0
    | none => top0
  let big : PlannedAction :=
    { actor_label := a.label, action_type := desire_to_big_action top_desire,
      is_big := true, target_labels := none }
  let remaining_desires := sorted_desires.tail
  let picked_names := small_loop_names remaining_desires [top_desire] 0
  let fallback_names := (remaining_desires.take (2 - picked_names.length)).map Prod.fst
  big :: (picked_names ++ fallback_names).map (fun n =>
    { actor_label := a.label, action_type := desire_to_small_action n,
      is_big := false, target_labels := none })

/-- Model of `_score_target_for_action` (src/logic/decisions.py:189-241). -/
def score_target_for_action (agent target : Agent) (action_type : ActionType) : ℚ :=
  let mem := match assocLookup agent.memory target.label with
    | some m => (m.trust, m.attraction, m.familiarity, m.last_result)
    | none => ((50 : ℚ), (50 : ℚ), (0 : ℚ), (none : Option String))
  let trust := mem.1
  let attraction := mem.2.1
  let familiarity := mem.2.2.1
  let last_result := mem.2.2.2
  let score := trust + attraction + familiarity
  let score :=
    if action_type ∈ romanticActionTypes then
      score + agent.warmth * 2 + agent.love_orientation * 2 + target.warmth * 1
    else
      score + agent.sociability * 2 + target.sociability * 1
  let score := score + agent.curiosity * 1 + agent.stability * 1
  let score :=
    if last_result = some result_negative then score - 30
    else if last_result = some result_neutral then score - 10
    else score
  if familiarity < 20 then score + agent.impulse * 1 else score
where
  result_negative : String := "negative"
  result_neutral : String := "neutral"

/-- Per-action body of the loop in `assign_action_targets`
(src/logic/decisions.py:163-185). -/
def assign_one (agent : Agent) (other_agents : List Agent) (act : PlannedAction) : PlannedAction :=
  if act.action_type ∈ interactionActionTypes then
    let target_scores := other_agents.map (fun t => (t.label, score_target_for_action agent t act.action_type))
    let sorted := List.insertionSort desireGE target_scores
    if act.action_type = ActionType.BIG_SOCIAL_EVENT then
      let num_targets := min 3 sorted.length
      { act with target_labels := some ((sorted.take num_targets).map Prod.fst) }
    else
      match sorted with
      | [] => act
      | p :: _ => { act with target_labels := some [p.1] }
  else act

/-- Model of `assign_action_targets` (src/logic/decisions.py:125-186). -/
def assign_action_targets (agent : Agent) (world_agents : List Agent)
    (planned_actions : List PlannedAction) : List PlannedAction :=
  let other_agents := world_agents.filter (fun t => decide (t.label ≠ agent.label))
  if other_agents.isEmpty then planned_actions
  else planned_actions.map (assign_one agent other_agents)

/-! ### Interactions (src/logic/interactions.py) -/

def result_positive : String := "positive"
def result_negative : String := "negative"
def result_neutral : String := "neutral"

/-- Model of `InteractionProposal` (src/logic/interactions.py:25-37). -/
structure InteractionProposal where
  initiator_label : String
  target_labels : List String
  action_type : ActionType

/-- Model of `ResolvedInteraction` (src/logic/interactions.py:40-56). -/
structure ResolvedInteraction where
  initiator_label : String
  target_labels : List String
  action_type : ActionType
  accepted_targets : List String
  rejected_targets : List String

/-- Model of `_get_agent_by_label` (src/logic/interactions.py:419-424):
first agent in the list with the given label. -/
def get_agent_by_label : List Agent → String → Option Agent
  | [], _ => none
  | a :: rest, l => if a.label = l then some a else get_agent_by_label rest l

/-- Replacement of the first agent with the given label, modelling an
in-place mutation of the object returned by `_get_agent_by_label`. -/
def update_agent_first : List Agent → String → (Agent → Agent) → List Agent
  | [], _, _ => []
  | a :: rest, l, f => if a.label = l then f a :: rest else a :: update_agent_first rest l f

/-- Model of `collect_interaction_proposals` (src/logic/interactions.py:59-94):
only interaction-typed actions with a truthy (non-`None`, non-empty) target
list produce a proposal. -/
def collect_interaction_proposals (all_actions : List PlannedAction) : List InteractionProposal :=
  all_actions.filterMap (fun act =>
    if act.action_type ∈ interactionActionTypes then
      match act.target_labels with
      | some (l :: ls) =>
        some { initiator_label := act.actor_label, target_labels := l :: ls,
               action_type := act.action_type }
      | _ => none
    else none)

/-- Model of `_should_accept_proposal` (src/logic/interactions.py:156-225).
Consumes two draws: the impulse jitter (`random.uniform`) and the final
acceptance draw (`random.random`). -/
def should_accept_proposal (target initiator : Agent) (action_type : ActionType)
    (r : RNG) : Bool × RNG :=
  let mem := match assocLookup target.memory initiator.label with
    | some m => (m.trust, m.last_result)
    | none => ((50 : ℚ), (none : Option String))
  let trust := mem.1
  let last_result := mem.2
  let accept_prob : ℚ := 0.5
  let accept_prob := accept_prob * (target.energy / 100)
  let accept_prob := accept_prob * (1 - target.desire_rest / 200)
  let accept_prob := accept_prob * (1 - target.trauma_level / 200)
  let accept_prob :=
    if action_type ∈ romanticActionTypes then accept_prob + (target.desire_love / 100) * 0.3
    else if action_type ∈ socialOnlyActionTypes then accept_prob + (target.desire_social / 100) * 0.3
    else accept_prob
  let accept_prob := accept_prob + (trust / 100) * 0.2
  let accept_prob :=
    if last_result = some result_negative then accept_prob * 0.3
    else if last_result = some result_neutral then accept_prob * 0.7
    else accept_prob
  let accept_prob :=
    if action_type ∈ romanticActionTypes then accept_prob + (target.warmth / 10) * 0.1
    else accept_prob
  let accept_prob := accept_prob + (target.sociability / 10) * 0.1
  let impulse_variation := (target.impulse / 10) * 0.2
  let jitter := uniformDraw (-impulse_variation) impulse_variation r
  let accept_prob := accept_prob + jitter.1
  let accept_prob := max 0 (min 1 accept_prob)
  let draw := nextDraw jitter.2
  (decide (draw.1 < accept_prob), draw.2)

/-- The per-target decision loop of `evaluate_interaction_proposals`
(src/logic/interactions.py:133-143): a missing target is appended to the
rejected list without consuming randomness. -/
def decide_targets (agents : List Agent) (initiator : Agent) (action_type : ActionType) :
    List String → RNG → List String × List String × RNG
  | [], r => ([], [], r)
  | l :: rest, r =>
    match get_agent_by_label agents l with
    | none =>
      let p := decide_targets agents initiator action_type rest r
      (p.1, l :: p.2.1, p.2.2)
    | some target =>
      let d := should_accept_proposal target initiator action_type r
      let p := decide_targets agents initiator action_type rest d.2
      if d.1 then (l :: p.1, p.2.1, p.2.2) else (p.1, l :: p.2.1, p.2.2)

/-- One iteration of `evaluate_interaction_proposals`
(src/logic/interactions.py:125-151): a proposal whose initiator is missing
is skipped entirely (`continue`) and produces no resolution. -/
def resolve_proposal (agents : List Agent) (p : InteractionProposal) (r : RNG) :
    Option ResolvedInteraction × RNG :=
  match get_agent_by_label agents p.initiator_label with
  | none => (none, r)
  | some initiator =>
    let d := decide_targets agents initiator p.action_type p.target_labels r
    (some { initiator_label := p.initiator_label, target_labels := p.target_labels,
            action_type := p.action_type, accepted_targets := d.1,
            rejected_targets := d.2.1 }, d.2.2)

/-- Model of `evaluate_interaction_proposals` (src/logic/interactions.py:97-153). -/
def evaluate_interaction_proposals (agents : List Agent) :
    List InteractionProposal → RNG → List ResolvedInteraction × RNG
  | [], r => ([], r)
  | p :: rest, r =>
    let q := resolve_proposal agents p r
    let t := evaluate_interaction_proposals agents rest q.2
    (match q.1 with
     | some ri => ri :: t.1
     | none => t.1, t.2)

/-- Model of `_compute_chemistry` (src/logic/interactions.py:373-416). -/
def compute_chemistry (agent1 agent2 : Agent) (action_type : ActionType) : ℚ :=
  let base_chemistry := match assocLookup agent1.memory agent2.label with
    | some m => (m.trust + m.attraction + m.familiarity) / 3
    | none => (50 : ℚ)
  let trait_chemistry :=
    if action_type ∈ romanticActionTypes then
      let warmth_match := 100 - |agent1.warmth * 10 - agent2.warmth * 10|
      let love_match := 100 - |agent1.love_orientation * 10 - agent2.love_orientation * 10|
      (warmth_match + love_match) / 2
    else
      100 - |agent1.sociability * 10 - agent2.sociability * 10|
  let stability_bonus := (agent1.stability + agent2.stability) / 2
  let chemistry := base_chemistry * 0.4 + trait_chemistry * 0.4 + stability_bonus * 0.2
  max 0 (min 100 chemistry)

/-- Chemistry as used in `apply_interaction_outcomes`
(src/logic/interactions.py:264-266): destiny bias of the initiator is
applied first, then the target's bias is applied to the adjusted value. -/
def final_chemistry (ds : ℚ) (initiator target : Agent) (action_type : ActionType) : ℚ :=
  apply_destiny_bias ds target (apply_destiny_bias ds initiator
    (compute_chemistry initiator target action_type))

/-- Outcome classification of `apply_interaction_outcomes`
(src/logic/interactions.py:272-278). -/
def outcome_quality (chemistry : ℚ) : String :=
  if 70 < chemistry then result_positive
  else if chemistry < 30 then result_negative
  else result_neutral

/-- Month-indexed narrative store, model of `EventsFeed`
(src/history/events_feed.py): `add_event` is `dictAppend`,
`get_month_entries` is `dictEntries`. -/
abbrev EventsFeed := List (ℕ × List String)

/-- The per-agent interaction log dict built during a month. -/
abbrev InteractionLogs := List (String × List String)

def shared_event_text (n1 n2 : String) (t : ActionType) (quality : String) : String :=
  n1 ++ " and " ++ n2 ++ " shared " ++ action_type_display t ++ " (" ++ quality ++ ")."

def with_log_text (n : String) (t : ActionType) (quality : String) : String :=
  "With " ++ n ++ ": " ++ action_type_title t ++ " (" ++ quality ++ ")"

/-- Mutable state threaded through `apply_interaction_outcomes`. -/
structure OutcomeState where
  agents : List Agent
  rng : RNG
  events : EventsFeed
  logs : InteractionLogs

/-- Romantic-branch state and memory updates of `apply_interaction_outcomes`
(src/logic/interactions.py:281-321) for one `(initiator, target)` pair.
Each Python attribute assignment becomes an `update_agent_first` that reads
the agent's current fields, reproducing the in-place mutation semantics
(including aliasing when the two labels coincide). -/
def romantic_state_updates (chemistry initiator_luck target_luck : ℚ) (oq : String)
    (action_type : ActionType) (current_time : ℕ) (ini_label tgt_label : String)
    (agents : List Agent) : List Agent :=
  let love_change := chemistry / 10 + initiator_luck
  let social_change := chemistry / 15 + initiator_luck * 0.5
  let g1 := update_agent_first agents ini_label (fun g =>
    { g with love := clamp (g.love + love_change), social := clamp (g.social + social_change) })
  let g2 := update_agent_first g1 tgt_label (fun g =>
    { g with love := clamp (g.love + love_change + target_luck), social := clamp (g.social + social_change + target_luck * 0.5) })
  let g3 :=
    if oq = result_negative then
      let trauma_increase := (100 - chemistry) / 20
      let h1 := update_agent_first g2 ini_label (fun g =>
        { g with trauma_level := clamp (g.trauma_level + trauma_increase) })
      update_agent_first h1 tgt_label (fun g =>
        { g with trauma_level := clamp (g.trauma_level + trauma_increase) })
    else g2
  let trust_delta := (chemistry - 50) / 10
  let attraction_delta := (chemistry - 50) / 8
  let g4 := update_agent_first g3 ini_label (fun g =>
    update_memory_for g tgt_label trust_delta attraction_delta 10
      (some (action_type_value action_type)) (some oq) (some current_time))
  update_agent_first g4 tgt_label (fun g =>
    update_memory_for g ini_label trust_delta attraction_delta 10
      (some (action_type_value action_type)) (some oq) (some current_time))

/-- Social-branch state and memory updates of `apply_interaction_outcomes`
(src/logic/interactions.py:323-356) for one `(initiator, target)` pair. -/
def social_state_updates (chemistry initiator_luck target_luck : ℚ) (oq : String)
    (action_type : ActionType) (current_time : ℕ) (ini_label tgt_label : String)
    (agents : List Agent) : List Agent :=
  let social_change := chemistry / 12 + initiator_luck * 0.5
  let g1 := update_agent_first agents ini_label (fun g =>
    { g with social := clamp (g.social + social_change) })
  let g2 := update_agent_first g1 tgt_label (fun g =>
    { g with social := clamp (g.social + social_change + target_luck * 0.5) })
  let g3 :=
    if 60 < chemistry then
      let love_bump := (chemistry - 60) / 20
      let h1 := update_agent_first g2 ini_label (fun g =>
        { g with love := clamp (g.love + love_bump) })
      update_agent_first h1 tgt_label (fun g =>
        { g with love := clamp (g.love + love_bump) })
    else g2
  let trust_delta := (chemistry - 50) / 12
  let g4 := update_agent_first g3 ini_label (fun g =>
    update_memory_for g tgt_label trust_delta 0 8
      (some (action_type_value action_type)) (some oq) (some current_time))
  update_agent_first g4 tgt_label (fun g =>
    update_memory_for g ini_label trust_delta 0 8
      (some (action_type_value action_type)) (some oq) (some current_time))

/-- Body of the accepted-target loop of `apply_interaction_outcomes`
(src/logic/interactions.py:258-370) for one `(initiator, target)` pair.
Luck draws are consumed only when the respective agent's `luck_enabled` is
set. -/
def apply_pair (ds : ℚ) (current_time : ℕ) (action_type : ActionType)
    (ini_label tgt_label : String) (st : OutcomeState) : OutcomeState :=
  match get_agent_by_label st.agents tgt_label with
  | none => st
  | some target =>
    match get_agent_by_label st.agents ini_label with
    | none => st
    | some initiator =>
      let chemistry := final_chemistry ds initiator target action_type
      let l1 := if initiator.luck_enabled then uniformDraw (-5) 5 st.rng else ((0 : ℚ), st.rng)
      let initiator_luck := l1.1
      let l2 := if target.luck_enabled then uniformDraw (-5) 5 l1.2 else ((0 : ℚ), l1.2)
      let target_luck := l2.1
      let oq := outcome_quality chemistry
      let agents1 :=
        if action_type ∈ romanticActionTypes then
          romantic_state_updates chemistry initiator_luck target_luck oq action_type
            current_time ini_label tgt_label st.agents
        else if action_type ∈ socialOnlyActionTypes then
          social_state_updates chemistry initiator_luck target_luck oq action_type
            current_time ini_label tgt_label st.agents
        else st.agents
      { agents := agents1, rng := l2.2,
        events := dictAppend st.events current_time (shared_event_text initiator.name target.name action_type oq),
        logs := dictAppend (dictAppend st.logs ini_label (with_log_text target.name action_type oq))
          tgt_label (with_log_text initiator.name action_type oq) }

/-- The accepted-target loop of one resolved interaction. -/
def apply_pairs (ds : ℚ) (current_time : ℕ) (action_type : ActionType) (ini_label : String) :
    List String → OutcomeState → OutcomeState
  | [], st => st
  | t :: ts, st =>
    apply_pairs ds current_time action_type ini_label ts
      (apply_pair ds current_time action_type ini_label t st)

/-- Model of `apply_interaction_outcomes` (src/logic/interactions.py:228-370):
interactions without accepted targets, or whose initiator label matches no
agent, are skipped. -/
def apply_interaction_outcomes (ds : ℚ) (current_time : ℕ) :
    List ResolvedInteraction → OutcomeState → OutcomeState
  | [], st => st
  | ri :: rest, st =>
    let st' :=
      if ri.accepted_targets.isEmpty then st
      else
        match get_agent_by_label st.agents ri.initiator_label with
        | none => st
        | some _ => apply_pairs ds current_time ri.action_type ri.initiator_label ri.accepted_targets st
    apply_interaction_outcomes ds current_time rest st'

/-! ### Diary (src/logic/diary.py) -/

def rose_by_text : String := " rose by "
def fell_by_text : String := " fell by "

/-- The `TRACKED_FIELDS` deltas of `_summarize_state_changes`
(src/logic/diary.py:51-69), paired with `field.capitalize()`, in the fixed
order love, career, social, intelligence, physical, energy. -/
def tracked_deltas (a : Agent) (s : StateSnapshot) : List (String × ℚ) :=
  ([(("Love" : String), a.love - s.love),
    (("Career" : String), a.career - s.career),
    (("Social" : String), a.social - s.social),
    (("Intelligence" : String), a.intelligence - s.intelligence),
    (("Physical" : String), a.physical - s.physical),
    (("Energy" : String), a.energy - s.energy)]).filter (fun p => decide (3 ≤ |p.2|))

/-- Model of `_summarize_state_changes` (src/logic/diary.py:51-69); a missing
snapshot (empty dict) skips every field. -/
def summarize_state_changes (a : Agent) : String :=
  match a.last_state_snapshot with
  | none => ""
  | some s =>
    let deltas := tracked_deltas a s
    if deltas.isEmpty then ""
    else
      String.intercalate (", ") (deltas.map (fun p =>
        p.1 ++ (if 0 < p.2 then rose_by_text else fell_by_text) ++ formatQ0 |p.2|)) ++ "."

def month_header (month : ℕ) : String := "Month " ++ toString month ++ ": "
def key_moments_text (s : String) : String := "Key moments: " ++ s
def ripples_text : String := "More ripples followed."
def trauma_heavy_text : String := "Trauma feels heavy; breath work is urgent."
def trauma_mild_text : String := "Old wounds ache but remain manageable."
def whispers_text (s : String) : String := "Destiny feed whispers: " ++ s
def destiny_loud_text : String := "Destiny hums loudly; choices feel guided."
def destiny_quiet_text : String := "Destiny is quiet; free will feels wide open."
def flare_event_text (n : String) : String := "Destiny flares around " ++ n ++ ", hinting at a pivot."

/-- Model of `generate_monthly_diary` (src/logic/diary.py:18-48): returns the
entry and the agent with its `last_state_snapshot` refreshed. -/
def generate_monthly_diary (ds : ℚ) (a : Agent) (month : ℕ)
    (interactions events : List String) : String × Agent :=
  let lines := [month_header month]
  let changes := summarize_state_changes a
  let lines := if changes = "" then lines else lines ++ [changes]
  let lines := match interactions with
    | [] => lines
    | i0 :: irest => (lines ++ [key_moments_text i0]) ++ (if irest.isEmpty then [] else [ripples_text])
  let lines :=
    if 60 < a.trauma_level then lines ++ [trauma_heavy_text]
    else if 30 < a.trauma_level then lines ++ [trauma_mild_text]
    else lines
  let lines := match events with
    | [] => lines
    | e :: es => lines ++ [whispers_text ((e :: es).getLastD (""))]
  let destiny_bias := get_destiny_bias ds a
  let lines :=
    if 0.8 < destiny_bias then lines ++ [destiny_loud_text]
    else if destiny_bias < 0.2 then lines ++ [destiny_quiet_text]
    else lines
  let entry := (String.intercalate (" ") lines).trim
  (entry, { a with last_state_snapshot := some (capture_state_snapshot a) })

/-! ### Simulator (src/core/simulator.py) -/

/-- Model of `AgentOverride` (src/core/simulator.py:29-38). -/
structure AgentOverride where
  trauma_increase : ℚ := 0
  desire_boost_domain : Option String := none
  desire_boost_value : ℚ := 0
  bless : Bool := false
  lock_choice : Bool := false
  lock_domain : Option String := none

/-- Model of `World` (src/core/simulator.py:41-55). -/
structure World where
  agents : List Agent := []
  current_month : ℕ := 0
  total_months : ℕ := 60
  global_themes : List String := []
  destiny_strength : ℚ := 50
  agent_overrides : List (String × AgentOverride) := []
  events_feed : EventsFeed := []

/-- Model of `World.advance_month` (src/core/simulator.py:84-101): a no-op
returning `None` once the horizon is reached; otherwise increments the
month and returns the rotating theme (or `None` for an empty theme list). -/
def advance_month (w : World) : Option String × World :=
  if w.total_months ≤ w.current_month then (none, w)
  else
    let w' := { w with current_month := w.current_month + 1 }
    if w.global_themes.isEmpty then (none, w')
    else (some (w.global_themes.getD ((w'.current_month - 1) % w.global_themes.length) ("")), w')

def trauma_event_text (n : String) (inc : ℚ) : String :=
  n ++ " carries extra trauma (+" ++ formatQ0 inc ++ ")."

/-- The desire-boost override application of `run_month`
(src/core/simulator.py:155-159): `setattr` on `desire_<domain>` guarded by
`hasattr`, so unknown domains are silently ignored. -/
def boost_desire (a : Agent) (domain : String) (amount : ℚ) : Agent :=
  if domain = dom_love then { a with desire_love := clamp (a.desire_love + amount) }
  else if domain = dom_career then { a with desire_career := clamp (a.desire_career + amount) }
  else if domain = dom_social then { a with desire_social := clamp (a.desire_social + amount) }
  else if domain = dom_physical then { a with desire_physical := clamp (a.desire_physical + amount) }
  else if domain = dom_learning then { a with desire_learning := clamp (a.desire_learning + amount) }
  else if domain = dom_rest then { a with desire_rest := clamp (a.desire_rest + amount) }
  else a

/-- Blessing and lock-domain override application of `run_month`
(src/core/simulator.py:139-142). -/
def override_blessing_lock (a : Agent) (ov : Option AgentOverride) : Agent :=
  { a with
    destiny_blessing := match ov with
      | some o => if o.bless then 0.2 else 0
      | none => 0
    locked_action_domain := match ov with
      | some o => if o.lock_choice then o.lock_domain else none
      | none => none }

/-- Trauma override application of `run_month` (src/core/simulator.py:143-144);
Python truthiness makes a zero `trauma_increase` a no-op. -/
def override_trauma : Agent → Option AgentOverride → Agent
  | a, none => a
  | a, some o =>
    if o.trauma_increase ≠ 0 then
      { a with trauma_level := clamp (a.trauma_level + o.trauma_increase) }
    else a

/-- Trauma override event emission of `run_month`
(src/core/simulator.py:145-148); the agent's `name` is unchanged by the
preceding override application. -/
def override_trauma_events (a : Agent) (ov : Option AgentOverride) (month_index : ℕ)
    (ev : EventsFeed) : EventsFeed :=
  match ov with
  | some o =>
    if o.trauma_increase ≠ 0 then
      dictAppend ev month_index (trauma_event_text a.name o.trauma_increase)
    else ev
  | none => ev

/-- Pending desire-boost application of `run_month`
(src/core/simulator.py:149-159): `setattr` on `desire_<domain>` guarded by
`hasattr` (see `boost_desire`); an empty boost-domain string is falsy and
skipped. -/
def apply_desire_boost (a : Agent) : Option AgentOverride → Agent
  | none => a
  | some o =>
    match o.desire_boost_domain with
    | none => a
    | some domain => if domain ≠ "" then boost_desire a domain o.desire_boost_value else a

/-- Step 2 of `run_month` (src/core/simulator.py:135-159) for all agents:
override application (blessing, lock, trauma bump with event), desire
recomputation, then the pending desire boost. -/
def desires_phase (global_theme : String) (month_index : ℕ)
    (overrides : List (String × AgentOverride)) :
    List Agent → EventsFeed → List Agent × EventsFeed
  | [], ev => ([], ev)
  | a :: rest, ev =>
    let ov := assocLookup overrides a.label
    let a1 := override_blessing_lock a ov
    let a2 := override_trauma a1 ov
    let ev1 := override_trauma_events a1 ov month_index ev
    let a3 := update_agent_desires a2 global_theme
    let a4 := apply_desire_boost a3 ov
    let p := desires_phase global_theme month_index overrides rest ev1
    (a4 :: p.1, p.2)

/-- Step 3 of `run_month` (src/core/simulator.py:161-169): plan and target
all agents' actions, collecting them and the per-agent dict. -/
def plan_phase (ds : ℚ) (world_agents : List Agent) :
    List PlannedAction × List (String × List PlannedAction) :=
  world_agents.foldl (fun acc a =>
    let actions := assign_action_targets a world_agents (plan_agent_actions ds a)
    (acc.1 ++ actions, dictInsert acc.2 a.label actions)) ([], [])

/-- Step 5 of `run_month` (src/core/simulator.py:176-185): solo-action
effects followed by the destiny-flare draw for each agent in order. -/
def solo_phase (ds : ℚ) (month_index : ℕ) (actions_map : List (String × List PlannedAction)) :
    List Agent → RNG → EventsFeed → List Agent × RNG × EventsFeed
  | [], r, ev => ([], r, ev)
  | a :: rest, r, ev =>
    let acts := match assocLookup actions_map a.label with
      | some l => l
      | none => []
    let a1 := apply_solo_action_effects a acts
    let d := nextDraw r
    let ev1 := if d.1 < get_destiny_bias ds a1 / 4 then
        dictAppend ev month_index (flare_event_text a1.name)
      else ev
    let p := solo_phase ds month_index actions_map rest d.2 ev1
    (a1 :: p.1, p.2.1, p.2.2)

/-- Model of `run_month` (src/core/simulator.py:108-195).  The module-global
destiny strength is the explicit `ds` parameter; the ambient random
generator is the explicit draw list. -/
def run_month (ds : ℚ) (w : World) (r : RNG) : World × RNG :=
  let am := advance_month w
  match am.1 with
  | none => (am.2, r)
  | some global_theme =>
    let w1 := am.2
    let month_index := w1.current_month
    let dp := desires_phase global_theme month_index w1.agent_overrides w1.agents w1.events_feed
    let pp := plan_phase ds dp.1
    let proposals := collect_interaction_proposals pp.1
    let er := evaluate_interaction_proposals dp.1 proposals r
    let st := apply_interaction_outcomes ds month_index er.1
      { agents := dp.1, rng := er.2, events := dp.2, logs := [] }
    let sp := solo_phase ds month_index pp.2 st.agents st.rng st.events
    let entries := dictEntries sp.2.2 month_index
    let final_agents := sp.1.map (fun a =>
      let g := generate_monthly_diary ds a month_index (dictEntries st.logs a.label) entries
      { g.2 with diary_log := dictInsert g.2.diary_log month_index g.1 })
    ({ w1 with agents := final_agents, events_feed := sp.2.2 }, sp.2.1)

/-! ### Archetypes and agent creation -/

/-- Model of `get_default_archetypes` (src/agents/archetypes.py:50-219). -/
def get_default_archetypes : List Archetype :=
  [⟨"Vayu", "vayu", 7, 8, 6, 4, 9, 7, 5, 7, 6, 8, 5, 5⟩,
   ⟨"Agni", "agni", 6, 9, 7, 5, 7, 8, 8, 7, 5, 7, 6, 6⟩,
   ⟨"Dhara", "dhara", 8, 6, 8, 7, 5, 6, 7, 6, 8, 4, 7, 8⟩,
   ⟨"Jvala", "jvala", 5, 9, 5, 3, 8, 9, 6, 8, 4, 9, 4, 4⟩,
   ⟨"Neer", "neer", 9, 5, 7, 8, 6, 7, 6, 7, 9, 3, 8, 9⟩,
   ⟨"Kash", "kash", 4, 7, 4, 6, 7, 5, 8, 8, 3, 5, 5, 7⟩,
   ⟨"Vrishti", "vrishti", 7, 6, 9, 6, 8, 8, 5, 6, 8, 6, 7, 6⟩,
   ⟨"Pashan", "pashan", 5, 5, 3, 9, 4, 4, 9, 6, 4, 2, 3, 9⟩,
   ⟨"Ahnil", "ahnil", 6, 8, 6, 7, 6, 6, 7, 8, 6, 5, 6, 7⟩,
   ⟨"Prith", "prith", 8, 7, 8, 8, 5, 5, 8, 7, 9, 3, 8, 8⟩]

/-- Model of `generate_destiny_seed` (src/agents/intro.py:90-102). -/
def generate_destiny_seed (arch : Archetype) : ℚ :=
  let raw := (arch.curiosity + arch.creativity + arch.love_orientation + arch.memory_depth) / 40
  min 1 (max 0 (raw * (0.6 + arch.stability / 20)))

/-- Model of `Agent.from_archetype` followed by `reset_state`
(src/agents/agent.py:100-146): traits copied, state at the 50-point
baseline, snapshot captured. -/
def from_archetype (arch : Archetype) : Agent :=
  { name := arch.name, label := arch.label,
    love_orientation := arch.love_orientation, drive := arch.drive,
    sociability := arch.sociability, stability := arch.stability,
    curiosity := arch.curiosity, creativity := arch.creativity,
    hardworking := arch.hardworking, intelligence_base := arch.intelligence_base,
    warmth := arch.warmth, impulse := arch.impulse,
    trauma_sensitivity := arch.trauma_sensitivity, memory_depth := arch.memory_depth,
    destiny_seed := generate_destiny_seed arch,
    last_state_snapshot := some ⟨50, 50, 50, 50, 50, 50, 0⟩ }

/-- The default rotating theme list (src/core/simulator.py:76-82). -/
def default_global_themes : List String :=
  [theme_romance, theme_career, theme_chaos, theme_self_help, theme_science]

/-- Model of `World.initialize_default_world` (src/core/simulator.py:57-82). -/
def init_default_world (w : World) : World :=
  { w with
    agents := get_default_archetypes.map from_archetype
    current_month := 0
    total_months := 12
    events_feed := []
    agent_overrides := []
    global_themes := default_global_themes }

/-! ### History recorder (src/history/recorder.py) -/

/-- Model of `AgentSnapshot` (src/history/recorder.py:15-41). -/
structure AgentSnapshot where
  month : ℕ
  label : String
  name : String
  physical : ℚ
  love : ℚ
  career : ℚ
  social : ℚ
  intelligence : ℚ
  energy : ℚ
  trauma_level : ℚ

def snapshot_of (month : ℕ) (a : Agent) : AgentSnapshot :=
  { month := month, label := a.label, name := a.name, physical := a.physical,
    love := a.love, career := a.career, social := a.social,
    intelligence := a.intelligence, energy := a.energy, trauma_level := a.trauma_level }

/-- Model of `record_world_state` (src/history/recorder.py:55-81): appends
one snapshot per agent for the current month. -/
def record_world_state (w : World) (h : List AgentSnapshot) : List AgentSnapshot :=
  h ++ w.agents.map (snapshot_of w.current_month)

/-- The `while` loop of `run_full_simulation` (src/core/simulator.py:229-231),
with fuel `total_months - current_month`; `run_month` advances the month by
exactly one whenever `current_month < total_months`, so the fuel mirrors
the Python loop's termination measure exactly. -/
def sim_loop (ds : ℚ) : ℕ → World → RNG → List AgentSnapshot → World × RNG × List AgentSnapshot
  | 0, w, r, h => (w, r, h)
  | fuel + 1, w, r, h =>
    if w.current_month < w.total_months then
      let p := run_month ds w r
      sim_loop ds fuel p.1 p.2 (record_world_state p.1 h)
    else (w, r, h)

/-- Model of `run_full_simulation` (src/core/simulator.py:198-233). -/
def run_full_simulation (w : World) (r : RNG) : World × RNG × List AgentSnapshot :=
  let ds := set_destiny_strength w.destiny_strength
  let w1 := { w with events_feed := ([] : EventsFeed) }
  let h0 := record_world_state w1 []
  sim_loop ds (w1.total_months - w1.current_month) w1 r h0

/-! ### Shared lemmas about `clamp` -/

theorem clamp_nonneg (v : ℚ) : 0 ≤ clamp v := le_max_left _ _

theorem clamp_le_100 (v : ℚ) : clamp v ≤ 100 :=
  max_le (by norm_num) (min_le_left _ _)

theorem clamp_mono {a b : ℚ} (h : a ≤ b) : clamp a ≤ clamp b :=
  max_le_max le_rfl (min_le_min le_rfl h)

/-! ### C10: destiny bias never exceeds 1, adjustment stays within ±4 -/

/--
C10: whenever the destiny strength has been configured through
`set_destiny_strength` (hence lies in [0,100]), `get_destiny_bias` is at
most 1.0 for every agent — the upper clamp at 1.5 is never reached — and
consequently `apply_destiny_bias agent v` always lies between
`clamp (v - 4)` and `clamp (v + 4)`: the adjustment never reaches the +8
suggested by the code comment.
-/
theorem destiny_bias_bounded (v : ℚ) (a : Agent) (x : ℚ) :
    get_destiny_bias (set_destiny_strength v) a ≤ 1 ∧
    0 ≤ get_destiny_bias (set_destiny_strength v) a ∧
    clamp (x - 4) ≤ apply_destiny_bias (set_destiny_strength v) a x ∧
    apply_destiny_bias (set_destiny_strength v) a x ≤ clamp (x + 4) := by
  have hs0 : (0 : ℚ) ≤ set_destiny_strength v := le_max_left _ _
  have hs100 : set_destiny_strength v ≤ 100 :=
    max_le (by norm_num) (min_le_left _ _)
  have hbase0 : (0 : ℚ) ≤ max 0 (min 1 (a.destiny_seed + a.destiny_blessing)) := le_max_left _ _
  have hbase1 : max 0 (min 1 (a.destiny_seed + a.destiny_blessing)) ≤ 1 :=
    max_le (by norm_num) (min_le_left _ _)
  have hq0 : (0 : ℚ) ≤ set_destiny_strength v / 100 := by positivity
  have hq1 : set_destiny_strength v / 100 ≤ 1 := by
    rw [div_le_one (by norm_num : (0:ℚ) < 100)]; exact hs100
  have hprod0 : (0 : ℚ) ≤ max 0 (min 1 (a.destiny_seed + a.destiny_blessing)) * (set_destiny_strength v / 100) :=
    mul_nonneg hbase0 hq0
  have hprod1 : max 0 (min 1 (a.destiny_seed + a.destiny_blessing)) * (set_destiny_strength v / 100) ≤ 1 := by
    calc max 0 (min 1 (a.destiny_seed + a.destiny_blessing)) * (set_destiny_strength v / 100)
        ≤ 1 * 1 := by
          exact mul_le_mul hbase1 hq1 hq0 (by norm_num)
      _ = 1 := by norm_num
  have hbias_eq : get_destiny_bias (set_destiny_strength v) a =
      max 0 (min 1 (a.destiny_seed + a.destiny_blessing)) * (set_destiny_strength v / 100) := by
    show max 0 (min 1.5 (max 0 (min 1 (a.destiny_seed + a.destiny_blessing)) * (set_destiny_strength v / 100))) = _
    rw [min_eq_right (le_trans hprod1 (by norm_num)), max_eq_right hprod0]
  have hbias1 : get_destiny_bias (set_destiny_strength v) a ≤ 1 := hbias_eq ▸ hprod1
  have hbias0 : (0 : ℚ) ≤ get_destiny_bias (set_destiny_strength v) a := hbias_eq ▸ hprod0
  refine ⟨hbias1, hbias0, ?_, ?_⟩
  · unfold apply_destiny_bias
    apply clamp_mono
    nlinarith [hbias0]
  · unfold apply_destiny_bias
    apply clamp_mono
    nlinarith [hbias1]

/-! ### C6: the desire_love formula and the ROMANCE scenario -/

/-- Concrete scenario agent of the spec: `love_orientation = 8`, `love = 50`,
`trauma_level = 0`. -/
def c6Agent : Agent :=
  { name := "S", label := "s", love_orientation := 8, drive := 5, sociability := 5,
    stability := 5, curiosity := 5, creativity := 5, hardworking := 5,
    intelligence_base := 5, warmth := 5, impulse := 5, trauma_sensitivity := 5,
    memory_depth := 5, love := 50, trauma_level := 0 }

/--
C6: the desire engine computes `desire_love` as
`clamp(love_orientation*5 + (100-love)*0.3 - (trauma_level/100)*20 + 15)`
under theme ROMANCE (the +15 theme bonus); in particular an agent with
`love_orientation = 8`, `love = 50`, `trauma_level = 0` gets
`desire_love = 70` exactly.
-/
theorem desire_love_romance :
    (∀ a : Agent, a.love ≤ 100 →
      (update_agent_desires a theme_romance).desire_love =
        clamp (a.love_orientation * 5 + (100 - a.love) * 0.3 - (a.trauma_level / 100) * 20 + 15)) ∧
    (update_agent_desires c6Agent theme_romance).desire_love = 70 := by
  constructor
  · intro a hlove
    have hmax : max 0 (100 - a.love) = 100 - a.love :=
      max_eq_right (by linarith)
    simp only [update_agent_desires, if_pos rfl, if_true, hmax]
  · simp only [update_agent_desires, c6Agent, if_pos rfl, if_true, clamp]
    norm_num

/-- Witness for `desire_love_romance`: the hypothesis `love ≤ 100` holds at
the scenario agent and the formula evaluates there. -/
theorem desire_love_romance_witness :
    c6Agent.love ≤ 100 ∧
    (update_agent_desires c6Agent theme_romance).desire_love =
      clamp (c6Agent.love_orientation * 5 + (100 - c6Agent.love) * 0.3 -
        (c6Agent.trauma_level / 100) * 20 + 15) :=
  ⟨by norm_num [c6Agent], desire_love_romance.1 c6Agent (by norm_num [c6Agent])⟩

/-! ### C3: chemistry formula, destiny order, classification boundaries -/

/--
C3: for every (initiator, target) pair the chemistry score equals
`clamp(0.4*base_chemistry + 0.4*trait_chemistry + 0.2*stability_bonus)`
with `base_chemistry` taken from the initiator's memory of the target only
(default 50); the destiny bias is then applied for the initiator first and
for the target second; the outcome is positive iff chemistry > 70 strictly
and negative iff chemistry < 30 strictly, so 70.0 and 30.0 are both
classified neutral.
-/
theorem chemistry_spec :
    (∀ (a b : Agent) (t : ActionType), compute_chemistry a b t =
      clamp (0.4 * (match assocLookup a.memory b.label with
          | some m => (m.trust + m.attraction + m.familiarity) / 3
          | none => (50 : ℚ)) +
        0.4 * (if t ∈ romanticActionTypes then
            ((100 - |a.warmth * 10 - b.warmth * 10|) +
              (100 - |a.love_orientation * 10 - b.love_orientation * 10|)) / 2
          else 100 - |a.sociability * 10 - b.sociability * 10|) +
        0.2 * ((a.stability + b.stability) / 2))) ∧
    (∀ (ds : ℚ) (a b : Agent) (t : ActionType),
      final_chemistry ds a b t =
        apply_destiny_bias ds b (apply_destiny_bias ds a (compute_chemistry a b t))) ∧
    outcome_quality 70 = result_neutral ∧
    outcome_quality 30 = result_neutral ∧
    (∀ c : ℚ, outcome_quality c = result_positive ↔ 70 < c) ∧
    (∀ c : ℚ, outcome_quality c = result_negative ↔ c < 30) := by
  have hpn : result_positive ≠ result_neutral := by decide
  have hnn : result_negative ≠ result_neutral := by decide
  have hpg : result_positive ≠ result_negative := by decide
  refine ⟨?_, fun _ _ _ _ => rfl, ?_, ?_, ?_, ?_⟩
  · intro a b t
    unfold compute_chemistry clamp
    cases assocLookup a.memory b.label with
    | none => by_cases ht : t ∈ romanticActionTypes <;> simp [ht] <;> ring_nf
    | some m => by_cases ht : t ∈ romanticActionTypes <;> simp [ht] <;> ring_nf
  · unfold outcome_quality
    rw [if_neg (by norm_num), if_neg (by norm_num)]
  · unfold outcome_quality
    rw [if_neg (by norm_num), if_neg (by norm_num)]
  · intro c
    constructor
    · intro h
      by_contra hc
      unfold outcome_quality at h
      rw [if_neg hc] at h
      split_ifs at h
      · exact (Ne.symm hpg) h
      · exact (Ne.symm hpn) h
    · intro h
      unfold outcome_quality
      rw [if_pos h]
  · intro c
    constructor
    · intro h
      unfold outcome_quality at h
      by_cases h70 : 70 < c
      · rw [if_pos h70] at h
        exact absurd h hpg
      · rw [if_neg h70] at h
        by_contra hc
        rw [if_neg hc] at h
        exact (Ne.symm hnn) h
    · intro h
      unfold outcome_quality
      rw [if_neg (by linarith), if_pos h]

/-! ### C9: horizon behaviour of advance_month and run_month -/

/--
C9: once the horizon is reached (`current_month ≥ total_months`),
`advance_month` returns `None` and leaves the `World` unchanged (hence
remains a no-op on every later call), and `run_month` performs no mutation
at all and consumes no randomness; otherwise `advance_month` increments
`current_month` by exactly one and returns the theme of the new month from
the rotating theme list.
-/
theorem horizon_no_op :
    (∀ w : World, w.total_months ≤ w.current_month → advance_month w = (none, w)) ∧
    (∀ (ds : ℚ) (w : World) (r : RNG), w.total_months ≤ w.current_month →
      run_month ds w r = (w, r)) ∧
    (∀ w : World, w.current_month < w.total_months →
      (advance_month w).2 = { w with current_month := w.current_month + 1 } ∧
      (w.global_themes ≠ [] → (advance_month w).1 =
        some (w.global_themes.getD (w.current_month % w.global_themes.length) ("")))) := by
  refine ⟨?_, ?_, ?_⟩
  · intro w h
    unfold advance_month
    rw [if_pos h]
  · intro ds w r h
    unfold run_month advance_month
    rw [if_pos h]
  · intro w h
    have hn := not_le.mpr h
    unfold advance_month
    rw [if_neg (by simpa using hn)]
    constructor
    · by_cases ht : w.global_themes.isEmpty <;> simp [ht]
    · intro hne
      have ht : w.global_themes.isEmpty = false := by
        simpa [List.isEmpty_iff] using hne
      simp [ht]

/-- Witness for `horizon_no_op` at concrete worlds on both sides of the
horizon. -/
theorem horizon_no_op_witness :
    (advance_month { total_months := 0 } = (none, { total_months := 0 }) ∧
      run_month 50 { total_months := 0 } [] = ({ total_months := 0 }, [])) ∧
    ((advance_month { total_months := 2, global_themes := default_global_themes }).2 =
      { total_months := 2, global_themes := default_global_themes, current_month := 1 } ∧
      (default_global_themes ≠ [] →
        (advance_month { total_months := 2, global_themes := default_global_themes }).1 =
          some (default_global_themes.getD (0 % default_global_themes.length) ("")))) :=
  ⟨⟨horizon_no_op.1 { total_months := 0 } (by norm_num),
    horizon_no_op.2.1 50 { total_months := 0 } [] (by norm_num)⟩,
   horizon_no_op.2.2 { total_months := 2, global_themes := default_global_themes } (by norm_num)⟩

/-! ### C7: determinism of run_month under a fixed draw sequence -/

/--
C7: two executions of `run_month` from identical `World` states consuming
identical sequences of random draws produce identical resulting worlds
(agent states, desires, memories, diaries, events feed) and identical
remaining draw sequences.  The embedding threads the random source
explicitly, so the claim is exactly congruence of the (pure) `run_month`
function.
-/
theorem run_month_deterministic (ds : ℚ) (w₁ w₂ : World) (r₁ r₂ : RNG)
    (hw : w₁ = w₂) (hr : r₁ = r₂) : run_month ds w₁ r₁ = run_month ds w₂ r₂ := by
  subst hw; subst hr; rfl

/-- Witness for `run_month_deterministic` at the default world. -/
theorem run_month_deterministic_witness :
    run_month 50 (init_default_world {}) [] = run_month 50 (init_default_world {}) [] :=
  run_month_deterministic 50 (init_default_world {}) (init_default_world {}) [] [] rfl rfl

/-! ### C5: proposal resolution partitions targets (amended for missing
initiators) -/

/-- A one-agent world used for the C5 counterexample and witness. -/
def c5Agent : Agent :=
  { name := "Resident", label := "resident", love_orientation := 5, drive := 5,
    sociability := 5, stability := 5, curiosity := 5, creativity := 5, hardworking := 5,
    intelligence_base := 5, warmth := 5, impulse := 5, trauma_sensitivity := 5,
    memory_depth := 5 }

/-- A proposal whose initiator label matches no agent of the world. -/
def c5GhostProposal : InteractionProposal :=
  { initiator_label := "ghost", target_labels := [c5Agent.label],
    action_type := ActionType.CASUAL_DATE }

/-- A proposal whose initiator exists but whose target does not. -/
def c5StaleTargetProposal : InteractionProposal :=
  { initiator_label := c5Agent.label, target_labels := ["ghost"],
    action_type := ActionType.CASUAL_DATE }

/--
Counterexample to C5 as stated: for the proposal whose initiator label
`"ghost"` matches no agent, `evaluate_interaction_proposals` skips the
proposal entirely (`continue` at src/logic/interactions.py:126-128) and
returns no resolved interaction at all, so its listed target `"resident"`
is never decided and no accepted/rejected partition of the target list
exists — contradicting "for every interaction proposal, each listed target
is decided exactly once [and] its accepted_targets and rejected_targets
lists partition the proposal's target labels".
-/
theorem evaluate_missing_initiator_cex :
    (evaluate_interaction_proposals [c5Agent] [c5GhostProposal] []).1 = [] := rfl

theorem count_decide_targets (agents : List Agent) (ini : Agent) (t : ActionType) :
    ∀ (ls : List String) (r : RNG) (l : String),
      (decide_targets agents ini t ls r).1.count l +
        (decide_targets agents ini t ls r).2.1.count l = ls.count l := by
  intro ls
  induction ls with
  | nil => intro r l; simp [decide_targets]
  | cons x rest ih =>
    intro r l
    unfold decide_targets
    cases hx : get_agent_by_label agents x with
    | none =>
      simp only [List.count_cons]
      have := ih r l
      omega
    | some tgt =>
      cases hd : (should_accept_proposal tgt ini t r).1 with
      | true =>
        have := ih (should_accept_proposal tgt ini t r).2 l
        simp only [hd, List.count_cons, if_true]
        simp only [List.count_cons] at this ⊢
        omega
      | false =>
        have := ih (should_accept_proposal tgt ini t r).2 l
        simp only [hd, Bool.false_eq_true, if_false, List.count_cons]
        omega

theorem mem_rejected_of_missing (agents : List Agent) (ini : Agent) (t : ActionType) :
    ∀ (ls : List String) (r : RNG) (l : String), l ∈ ls →
      get_agent_by_label agents l = none →
      l ∈ (decide_targets agents ini t ls r).2.1 := by
  intro ls
  induction ls with
  | nil => intro r l h; cases h
  | cons x rest ih =>
    intro r l hmem hnone
    unfold decide_targets
    rcases List.mem_cons.mp hmem with heq | hrest
    · subst heq
      rw [hnone]
      exact List.mem_cons_self _ _
    · cases hx : get_agent_by_label agents x with
      | none => exact List.mem_cons_of_mem _ (ih r l hrest hnone)
      | some tgt =>
        cases hd : (should_accept_proposal tgt ini t r).1 with
        | true =>
          simp only [hd, if_true]
          exact ih (should_accept_proposal tgt ini t r).2 l hrest hnone
        | false =>
          simp only [hd, if_false]
          exact List.mem_cons_of_mem _ (ih (should_accept_proposal tgt ini t r).2 l hrest hnone)

/--
C5 (amended): for every interaction proposal *whose initiator label matches
an agent in the world*, each listed target is decided exactly once — the
accepted and rejected lists partition the proposal's target labels by
count — and a target label matching no agent is placed in
`rejected_targets` without any exception; a proposal whose initiator label
matches no agent is instead skipped entirely, producing no resolved
interaction; and a resolved interaction with no accepted targets causes no
mutation of any agent state, memory, randomness, events or logs in
`apply_interaction_outcomes`.
-/
theorem proposal_partition :
    (∀ (agents : List Agent) (p : InteractionProposal) (r : RNG) (ini : Agent),
      get_agent_by_label agents p.initiator_label = some ini →
      ∃ ri : ResolvedInteraction, (resolve_proposal agents p r).1 = some ri ∧
        ri.initiator_label = p.initiator_label ∧
        ri.target_labels = p.target_labels ∧
        (∀ l : String, ri.accepted_targets.count l + ri.rejected_targets.count l =
          p.target_labels.count l) ∧
        (∀ l ∈ p.target_labels, get_agent_by_label agents l = none →
          l ∈ ri.rejected_targets)) ∧
    (∀ (agents : List Agent) (p : InteractionProposal) (r : RNG),
      get_agent_by_label agents p.initiator_label = none →
      (resolve_proposal agents p r).1 = none) ∧
    (∀ (ds : ℚ) (time : ℕ) (ri : ResolvedInteraction) (st : OutcomeState),
      ri.accepted_targets = [] → apply_interaction_outcomes ds time [ri] st = st) := by
  refine ⟨?_, ?_, ?_⟩
  · intro agents p r ini hini
    unfold resolve_proposal
    rw [hini]
    refine ⟨_, rfl, rfl, rfl, ?_, ?_⟩
    · intro l
      exact count_decide_targets agents ini p.action_type p.target_labels r l
    · intro l hmem hnone
      exact mem_rejected_of_missing agents ini p.action_type p.target_labels r l hmem hnone
  · intro agents p r hnone
    unfold resolve_proposal
    rw [hnone]
  · intro ds time ri st h
    unfold apply_interaction_outcomes
    rw [h]
    simp [apply_interaction_outcomes]

/-- Witness for `proposal_partition`: in the one-agent world, a proposal
from the existing agent to a stale label resolves, and the ghost-initiated
proposal is skipped. -/
theorem proposal_partition_witness :
    (get_agent_by_label [c5Agent] c5StaleTargetProposal.initiator_label = some c5Agent ∧
      ∃ ri : ResolvedInteraction,
        (resolve_proposal [c5Agent] c5StaleTargetProposal []).1 = some ri ∧
        ri.initiator_label = c5StaleTargetProposal.initiator_label ∧
        ri.target_labels = c5StaleTargetProposal.target_labels ∧
        (∀ l : String, ri.accepted_targets.count l + ri.rejected_targets.count l =
          c5StaleTargetProposal.target_labels.count l) ∧
        (∀ l ∈ c5StaleTargetProposal.target_labels,
          get_agent_by_label [c5Agent] l = none → l ∈ ri.rejected_targets)) ∧
    (resolve_proposal [c5Agent] c5GhostProposal []).1 = none ∧
    apply_interaction_outcomes 50 1
      [{ initiator_label := c5Agent.label, target_labels := ["ghost"],
         action_type := ActionType.CASUAL_DATE, accepted_targets := [],
         rejected_targets := ["ghost"] }]
      { agents := [c5Agent], rng := [], events := [], logs := [] } =
      { agents := [c5Agent], rng := [], events := [], logs := [] } :=
  ⟨⟨rfl, proposal_partition.1 [c5Agent] c5StaleTargetProposal [] c5Agent rfl⟩,
   proposal_partition.2.1 [c5Agent] c5GhostProposal [] rfl,
   proposal_partition.2.2 50 1 _ _ rfl⟩

/-! ### C1: every state scalar, desire and memory value stays in [0,100] -/

/-- A scalar in the inclusive range [0, 100]. -/
def InQ (x : ℚ) : Prop := 0 ≤ x ∧ x ≤ 100

/-- All three bounded memory scalars of an `AgentMemory` are in range. -/
def InRangeMem (m : AgentMemory) : Prop := InQ m.trust ∧ InQ m.attraction ∧ InQ m.familiarity

/-- All bounded scalars of an `Agent` are in range: the six state scalars,
`trauma_level`, the six desires, and every memory entry. -/
def InRangeAgent (a : Agent) : Prop :=
  InQ a.physical ∧ InQ a.love ∧ InQ a.career ∧ InQ a.social ∧ InQ a.intelligence ∧
  InQ a.energy ∧ InQ a.trauma_level ∧ InQ a.desire_love ∧ InQ a.desire_career ∧
  InQ a.desire_social ∧ InQ a.desire_physical ∧ InQ a.desire_learning ∧ InQ a.desire_rest ∧
  ∀ p ∈ a.memory, InRangeMem p.2

/-- Every agent of a population is in range. -/
def InRangeAll (l : List Agent) : Prop := ∀ a ∈ l, InRangeAgent a

theorem clamp_inQ (v : ℚ) : InQ (clamp v) := ⟨clamp_nonneg v, clamp_le_100 v⟩

theorem inRange_update_memory_for (a : Agent) (l : String) (td ad fd : ℚ)
    (it res : Option String) (tm : Option ℕ) (h : InRangeAgent a) :
    InRangeAgent (update_memory_for a l td ad fd it res tm) := by
  obtain ⟨h1, h2, h3, h4, h5, h6, h7, h8, h9, h10, h11, h12, h13, hm⟩ := h
  refine ⟨h1, h2, h3, h4, h5, h6, h7, h8, h9, h10, h11, h12, h13, ?_⟩
  intro p hp
  unfold update_memory_for at hp
  simp only [List.mem_map] at hp
  obtain ⟨q, hq, rfl⟩ := hp
  by_cases hql : q.1 = l
  · rw [if_pos hql]
    exact ⟨clamp_inQ _, clamp_inQ _, clamp_inQ _⟩
  · rw [if_neg hql]
    cases h0 : assocLookup a.memory l with
    | some m =>
      rw [h0] at hq
      exact hm q hq
    | none =>
      rw [h0] at hq
      rcases List.mem_append.mp hq with hq' | hq'
      · exact hm q hq'
      · exact absurd (congrArg Prod.fst (List.mem_singleton.mp hq')) hql

theorem inRange_update_agent_desires (a : Agent) (theme : String) (h : InRangeAgent a) :
    InRangeAgent (update_agent_desires a theme) := by
  obtain ⟨h1, h2, h3, h4, h5, h6, h7, _, _, _, _, _, _, hm⟩ := h
  simp only [update_agent_desires]
  split_ifs <;>
    exact ⟨h1, h2, h3, h4, h5, h6, h7, clamp_inQ _, clamp_inQ _, clamp_inQ _,
      clamp_inQ _, clamp_inQ _, clamp_inQ _, hm⟩

theorem inRange_boost_desire (a : Agent) (dom : String) (amt : ℚ) (h : InRangeAgent a) :
    InRangeAgent (boost_desire a dom amt) := by
  obtain ⟨h1, h2, h3, h4, h5, h6, h7, h8, h9, h10, h11, h12, h13, hm⟩ := h
  unfold boost_desire
  split_ifs
  · exact ⟨h1, h2, h3, h4, h5, h6, h7, clamp_inQ _, h9, h10, h11, h12, h13, hm⟩
  · exact ⟨h1, h2, h3, h4, h5, h6, h7, h8, clamp_inQ _, h10, h11, h12, h13, hm⟩
  · exact ⟨h1, h2, h3, h4, h5, h6, h7, h8, h9, clamp_inQ _, h11, h12, h13, hm⟩
  · exact ⟨h1, h2, h3, h4, h5, h6, h7, h8, h9, h10, clamp_inQ _, h12, h13, hm⟩
  · exact ⟨h1, h2, h3, h4, h5, h6, h7, h8, h9, h10, h11, clamp_inQ _, h13, hm⟩
  · exact ⟨h1, h2, h3, h4, h5, h6, h7, h8, h9, h10, h11, h12, clamp_inQ _, hm⟩
  · exact ⟨h1, h2, h3, h4, h5, h6, h7, h8, h9, h10, h11, h12, h13, hm⟩

theorem inRange_big_solo (a : Agent) (t : ActionType) (h : InRangeAgent a) :
    InRangeAgent (apply_big_solo_action a t) := by
  obtain ⟨h1, h2, h3, h4, h5, h6, h7, h8, h9, h10, h11, h12, h13, hm⟩ := h
  unfold apply_big_solo_action
  split_ifs
  · exact ⟨h1, h2, clamp_inQ _, h4, h5, clamp_inQ _, h7, h8, h9, h10, h11, h12, h13, hm⟩
  · exact ⟨h1, h2, clamp_inQ _, h4, clamp_inQ _, clamp_inQ _, h7, h8, h9, h10, h11, h12, h13, hm⟩
  · exact ⟨clamp_inQ _, h2, h3, h4, h5, clamp_inQ _, h7, h8, h9, h10, h11, h12, h13, hm⟩
  · exact ⟨clamp_inQ _, h2, h3, h4, h5, clamp_inQ _, h7, h8, h9, h10, h11, h12, h13, hm⟩
  · exact ⟨h1, h2, h3, h4, h5, h6, h7, h8, h9, h10, h11, h12, h13, hm⟩

theorem inRange_small_solo (a : Agent) (t : ActionType) (h : InRangeAgent a) :
    InRangeAgent (apply_small_solo_action a t) := by
  obtain ⟨h1, h2, h3, h4, h5, h6, h7, h8, h9, h10, h11, h12, h13, hm⟩ := h
  unfold apply_small_solo_action
  split_ifs
  · exact ⟨clamp_inQ _, h2, h3, h4, h5, clamp_inQ _, h7, h8, h9, h10, h11, h12, h13, hm⟩
  · exact ⟨h1, h2, h3, h4, clamp_inQ _, clamp_inQ _, h7, h8, h9, h10, h11, h12, h13, hm⟩
  · exact ⟨h1, h2, clamp_inQ _, clamp_inQ _, h5, clamp_inQ _, h7, h8, h9, h10, h11, h12, h13, hm⟩
  · exact ⟨clamp_inQ _, h2, h3, h4, h5, clamp_inQ _, h7, h8, h9, h10, h11, h12, h13, hm⟩
  · exact ⟨h1, h2, h3, h4, h5, h6, h7, h8, h9, h10, h11, h12, h13, hm⟩

theorem inRange_solo_effects (a : Agent) (actions : List PlannedAction) (h : InRangeAgent a) :
    InRangeAgent (apply_solo_action_effects a actions) := by
  unfold apply_solo_action_effects
  induction actions generalizing a with
  | nil => exact h
  | cons act rest ih =>
    rw [List.foldl_cons]
    apply ih
    rcases htl : act.target_labels with _ | ⟨_ | ⟨x, xs⟩⟩
    · simp only []
      split_ifs with hs hb
      · exact inRange_big_solo _ _ h
      · exact inRange_small_solo _ _ h
      · exact h
    · simp only []
      split_ifs with hs hb
      · exact inRange_big_solo _ _ h
      · exact inRange_small_solo _ _ h
      · exact h
    · exact h

theorem inRange_update_first {P : Agent → Prop} (l : List Agent) (lbl : String)
    (f : Agent → Agent) (hf : ∀ x, P x → P (f x)) (h : ∀ x ∈ l, P x) :
    ∀ x ∈ update_agent_first l lbl f, P x := by
  induction l with
  | nil => intro x hx; cases hx
  | cons a rest ih =>
    intro x hx
    unfold update_agent_first at hx
    by_cases ha : a.label = lbl
    · rw [if_pos ha] at hx
      rcases List.mem_cons.mp hx with hx | hx
      · exact hx ▸ hf a (h a (List.mem_cons_self _ _))
      · exact h x (List.mem_cons_of_mem _ hx)
    · rw [if_neg ha] at hx
      rcases List.mem_cons.mp hx with hx | hx
      · exact hx ▸ h a (List.mem_cons_self _ _)
      · exact ih (fun y hy => h y (List.mem_cons_of_mem _ hy)) x hx

theorem inRange_set_love_social (a : Agent) (v w : ℚ) (h : InRangeAgent a) :
    InRangeAgent { a with love := clamp v, social := clamp w } := by
  obtain ⟨h1, _, h3, _, h5, h6, h7, h8, h9, h10, h11, h12, h13, hm⟩ := h
  exact ⟨h1, clamp_inQ _, h3, clamp_inQ _, h5, h6, h7, h8, h9, h10, h11, h12, h13, hm⟩

theorem inRange_set_love (a : Agent) (v : ℚ) (h : InRangeAgent a) :
    InRangeAgent { a with love := clamp v } := by
  obtain ⟨h1, _, h3, h4, h5, h6, h7, h8, h9, h10, h11, h12, h13, hm⟩ := h
  exact ⟨h1, clamp_inQ _, h3, h4, h5, h6, h7, h8, h9, h10, h11, h12, h13, hm⟩

theorem inRange_set_social (a : Agent) (v : ℚ) (h : InRangeAgent a) :
    InRangeAgent { a with social := clamp v } := by
  obtain ⟨h1, h2, h3, _, h5, h6, h7, h8, h9, h10, h11, h12, h13, hm⟩ := h
  exact ⟨h1, h2, h3, clamp_inQ _, h5, h6, h7, h8, h9, h10, h11, h12, h13, hm⟩

theorem inRange_set_trauma (a : Agent) (v : ℚ) (h : InRangeAgent a) :
    InRangeAgent { a with trauma_level := clamp v } := by
  obtain ⟨h1, h2, h3, h4, h5, h6, _, h8, h9, h10, h11, h12, h13, hm⟩ := h
  exact ⟨h1, h2, h3, h4, h5, h6, clamp_inQ _, h8, h9, h10, h11, h12, h13, hm⟩

theorem inRange_override_trauma (a : Agent) (ov : Option AgentOverride)
    (h : InRangeAgent a) : InRangeAgent (override_trauma a ov) := by
  rcases ov with _ | o
  · exact h
  · show InRangeAgent (if o.trauma_increase ≠ 0 then
      { a with trauma_level := clamp (a.trauma_level + o.trauma_increase) } else a)
    split_ifs
    · exact inRange_set_trauma a _ h
    · exact h

theorem inRange_apply_desire_boost (a : Agent) (ov : Option AgentOverride)
    (h : InRangeAgent a) : InRangeAgent (apply_desire_boost a ov) := by
  rcases ov with _ | ⟨ti, dbd, dbv, bl, lc, ld⟩
  · exact h
  · rcases dbd with _ | domain
    · exact h
    · show InRangeAgent (if domain ≠ "" then boost_desire a domain dbv else a)
      split_ifs
      · exact inRange_boost_desire a domain dbv h
      · exact h

theorem inRange_desires_phase (theme : String) (month : ℕ)
    (ovs : List (String × AgentOverride)) :
    ∀ (agents : List Agent) (ev : EventsFeed), InRangeAll agents →
      InRangeAll (desires_phase theme month ovs agents ev).1 := by
  intro agents
  induction agents with
  | nil => intro ev _ a ha; cases ha
  | cons a rest ih =>
    intro ev hall b hb
    have ha : InRangeAgent a := hall a (List.mem_cons_self _ _)
    have hrest : InRangeAll rest := fun x hx => hall x (List.mem_cons_of_mem _ hx)
    unfold desires_phase at hb
    rcases List.mem_cons.mp hb with hb | hb
    · subst hb
      apply inRange_apply_desire_boost
      apply inRange_update_agent_desires
      apply inRange_override_trauma
      exact ha
    · exact ih _ hrest b hb


theorem inRange_romantic_updates (c il_luck tl_luck : ℚ) (oq : String) (t : ActionType)
    (time : ℕ) (il tl : String) (agents : List Agent) (h : InRangeAll agents) :
    InRangeAll (romantic_state_updates c il_luck tl_luck oq t time il tl agents) := by
  unfold romantic_state_updates
  simp only []
  split_ifs
  · exact inRange_update_first _ _ _
      (fun x hx => inRange_update_memory_for x _ _ _ _ _ _ _ hx)
      (inRange_update_first _ _ _
        (fun x hx => inRange_update_memory_for x _ _ _ _ _ _ _ hx)
        (inRange_update_first _ _ _ (fun x hx => inRange_set_trauma x _ hx)
          (inRange_update_first _ _ _ (fun x hx => inRange_set_trauma x _ hx)
            (inRange_update_first _ _ _ (fun x hx => inRange_set_love_social x _ _ hx)
              (inRange_update_first _ _ _
                (fun x hx => inRange_set_love_social x _ _ hx) h)))))
  · exact inRange_update_first _ _ _
      (fun x hx => inRange_update_memory_for x _ _ _ _ _ _ _ hx)
      (inRange_update_first _ _ _
        (fun x hx => inRange_update_memory_for x _ _ _ _ _ _ _ hx)
        (inRange_update_first _ _ _ (fun x hx => inRange_set_love_social x _ _ hx)
          (inRange_update_first _ _ _
            (fun x hx => inRange_set_love_social x _ _ hx) h)))

theorem inRange_social_updates (c il_luck tl_luck : ℚ) (oq : String) (t : ActionType)
    (time : ℕ) (il tl : String) (agents : List Agent) (h : InRangeAll agents) :
    InRangeAll (social_state_updates c il_luck tl_luck oq t time il tl agents) := by
  unfold social_state_updates
  simp only []
  split_ifs
  · exact inRange_update_first _ _ _
      (fun x hx => inRange_update_memory_for x _ _ _ _ _ _ _ hx)
      (inRange_update_first _ _ _
        (fun x hx => inRange_update_memory_for x _ _ _ _ _ _ _ hx)
        (inRange_update_first _ _ _ (fun x hx => inRange_set_love x _ hx)
          (inRange_update_first _ _ _ (fun x hx => inRange_set_love x _ hx)
            (inRange_update_first _ _ _ (fun x hx => inRange_set_social x _ hx)
              (inRange_update_first _ _ _
                (fun x hx => inRange_set_social x _ hx) h)))))
  · exact inRange_update_first _ _ _
      (fun x hx => inRange_update_memory_for x _ _ _ _ _ _ _ hx)
      (inRange_update_first _ _ _
        (fun x hx => inRange_update_memory_for x _ _ _ _ _ _ _ hx)
        (inRange_update_first _ _ _ (fun x hx => inRange_set_social x _ hx)
          (inRange_update_first _ _ _
            (fun x hx => inRange_set_social x _ hx) h)))

theorem inRange_apply_pair (ds : ℚ) (time : ℕ) (t : ActionType) (il tl : String)
    (st : OutcomeState) (h : InRangeAll st.agents) :
    InRangeAll (apply_pair ds time t il tl st).agents := by
  unfold apply_pair
  cases get_agent_by_label st.agents tl with
  | none => exact h
  | some target =>
    cases get_agent_by_label st.agents il with
    | none => exact h
    | some initiator =>
      simp only []
      split_ifs
      all_goals
        first
        | exact inRange_romantic_updates _ _ _ _ _ _ _ _ _ h
        | exact inRange_social_updates _ _ _ _ _ _ _ _ _ h
        | exact h

theorem inRange_apply_pairs (ds : ℚ) (time : ℕ) (t : ActionType) (il : String) :
    ∀ (ts : List String) (st : OutcomeState), InRangeAll st.agents →
      InRangeAll (apply_pairs ds time t il ts st).agents := by
  intro ts
  induction ts with
  | nil => intro st h; exact h
  | cons x rest ih =>
    intro st h
    exact ih _ (inRange_apply_pair ds time t il x st h)

theorem inRange_apply_outcomes (ds : ℚ) (time : ℕ) :
    ∀ (rs : List ResolvedInteraction) (st : OutcomeState), InRangeAll st.agents →
      InRangeAll (apply_interaction_outcomes ds time rs st).agents := by
  intro rs
  induction rs with
  | nil => intro st h; exact h
  | cons ri rest ih =>
    intro st h
    unfold apply_interaction_outcomes
    apply ih
    by_cases he : ri.accepted_targets.isEmpty
    · rw [if_pos he]; exact h
    · rw [if_neg he]
      cases get_agent_by_label st.agents ri.initiator_label with
      | none => exact h
      | some _ => exact inRange_apply_pairs ds time ri.action_type ri.initiator_label _ st h

theorem inRange_solo_phase (ds : ℚ) (month : ℕ) (amap : List (String × List PlannedAction)) :
    ∀ (agents : List Agent) (r : RNG) (ev : EventsFeed), InRangeAll agents →
      InRangeAll (solo_phase ds month amap agents r ev).1 := by
  intro agents
  induction agents with
  | nil => intro r ev _ a ha; cases ha
  | cons a rest ih =>
    intro r ev hall b hb
    unfold solo_phase at hb
    rcases List.mem_cons.mp hb with hb | hb
    · subst hb
      exact inRange_solo_effects _ _ (hall a (List.mem_cons_self _ _))
    · exact ih _ _ (fun x hx => hall x (List.mem_cons_of_mem _ hx)) b hb

theorem inRange_diary_step (ds : ℚ) (month : ℕ) (ints evs : List String) (a : Agent)
    (h : InRangeAgent a) :
    InRangeAgent (let g := generate_monthly_diary ds a month ints evs
      { g.2 with diary_log := dictInsert g.2.diary_log month g.1 }) := by
  obtain ⟨h1, h2, h3, h4, h5, h6, h7, h8, h9, h10, h11, h12, h13, hm⟩ := h
  exact ⟨h1, h2, h3, h4, h5, h6, h7, h8, h9, h10, h11, h12, h13, hm⟩

theorem inRange_run_month (ds : ℚ) (w : World) (r : RNG) (h : InRangeAll w.agents) :
    InRangeAll (run_month ds w r).1.agents := by
  have hadv : (advance_month w).2.agents = w.agents := by
    unfold advance_month
    split_ifs <;> rfl
  unfold run_month
  rcases ham : advance_month w with ⟨th, w2⟩
  rw [ham] at hadv
  rcases th with _ | theme
  · exact hadv ▸ h
  · have h2 : InRangeAll w2.agents := by rw [hadv]; exact h
    intro b hb
    rw [List.mem_map] at hb
    obtain ⟨a, ha, rfl⟩ := hb
    have h3 := inRange_desires_phase theme w2.current_month w2.agent_overrides
      w2.agents w2.events_feed h2
    set dp := desires_phase theme w2.current_month w2.agent_overrides w2.agents w2.events_feed
    set er := evaluate_interaction_proposals dp.1
      (collect_interaction_proposals (plan_phase ds dp.1).1) r
    have h4 := inRange_apply_outcomes ds w2.current_month er.1
      (⟨dp.1, er.2, dp.2, []⟩ : OutcomeState) h3
    set st2 := apply_interaction_outcomes ds w2.current_month er.1
      (⟨dp.1, er.2, dp.2, []⟩ : OutcomeState)
    have h5 := inRange_solo_phase ds w2.current_month (plan_phase ds dp.1).2
      st2.agents st2.rng st2.events h4
    exact inRange_diary_step ds _ _ _ a (h5 a ha)

/--
C1: starting from in-range values, after every phase of a simulation month
— override application plus desire recomputation (`desires_phase`), desire
recomputation alone (`update_agent_desires`), solo-action effects,
interaction-outcome application, and memory updates (`update_memory_for`,
for arbitrary delta magnitudes and signs) — every agent state scalar
(physical, love, career, social, intelligence, energy), `trauma_level`,
every desire scalar, and every memory trust/attraction/familiarity value
lies in [0,100], for any sequence of overrides and any random draws;
consequently a whole `run_month` preserves the bounds as well.
-/
theorem bounded_state_invariant :
    (∀ (theme : String) (month : ℕ) (ovs : List (String × AgentOverride))
      (agents : List Agent) (ev : EventsFeed), InRangeAll agents →
      InRangeAll (desires_phase theme month ovs agents ev).1) ∧
    (∀ (a : Agent) (theme : String), InRangeAgent a →
      InRangeAgent (update_agent_desires a theme)) ∧
    (∀ (a : Agent) (actions : List PlannedAction), InRangeAgent a →
      InRangeAgent (apply_solo_action_effects a actions)) ∧
    (∀ (ds : ℚ) (time : ℕ) (rs : List ResolvedInteraction) (st : OutcomeState),
      InRangeAll st.agents → InRangeAll (apply_interaction_outcomes ds time rs st).agents) ∧
    (∀ (a : Agent) (l : String) (td ad fd : ℚ) (it res : Option String) (tm : Option ℕ),
      InRangeAgent a → InRangeAgent (update_memory_for a l td ad fd it res tm)) ∧
    (∀ (ds : ℚ) (w : World) (r : RNG), InRangeAll w.agents →
      InRangeAll (run_month ds w r).1.agents) :=
  ⟨fun theme month ovs agents ev h => inRange_desires_phase theme month ovs agents ev h,
   fun a theme h => inRange_update_agent_desires a theme h,
   fun a actions h => inRange_solo_effects a actions h,
   fun ds time rs st h => inRange_apply_outcomes ds time rs st h,
   fun a l td ad fd it res tm h => inRange_update_memory_for a l td ad fd it res tm h,
   fun ds w r h => inRange_run_month ds w r h⟩

/-- Witness for `bounded_state_invariant`: all parts instantiated in the
one-agent world `[c5Agent]`, whose scalars are all in range; the memory
update uses deltas far outside [0,100]. -/
theorem bounded_state_invariant_witness :
    InRangeAll [c5Agent] ∧
    InRangeAll (desires_phase theme_romance 1 [] [c5Agent] []).1 ∧
    InRangeAgent (update_agent_desires c5Agent theme_romance) ∧
    InRangeAgent (apply_solo_action_effects c5Agent []) ∧
    InRangeAll (apply_interaction_outcomes 50 1 []
      { agents := [c5Agent], rng := [], events := [], logs := [] }).agents ∧
    InRangeAgent (update_memory_for c5Agent ("peer") 1000 (-1000) 3 none none none) ∧
    InRangeAll (run_month 50 { agents := [c5Agent], total_months := 12, global_themes := default_global_themes } []).1.agents := by
  have hc : InRangeAgent c5Agent := by
    refine ⟨?_, ?_, ?_, ?_, ?_, ?_, ?_, ?_, ?_, ?_, ?_, ?_, ?_, ?_⟩ <;>
      first
        | exact ⟨by norm_num [c5Agent], by norm_num [c5Agent]⟩
        | (intro p hp; simp [c5Agent] at hp)
  have hall : InRangeAll [c5Agent] := by
    intro a ha
    rw [List.mem_singleton] at ha
    exact ha ▸ hc
  exact ⟨hall,
    bounded_state_invariant.1 theme_romance 1 [] [c5Agent] [] hall,
    bounded_state_invariant.2.1 c5Agent theme_romance hc,
    bounded_state_invariant.2.2.1 c5Agent [] hc,
    bounded_state_invariant.2.2.2.1 50 1 [] _ hall,
    bounded_state_invariant.2.2.2.2.1 c5Agent ("peer") 1000 (-1000) 3 none none none hc,
    bounded_state_invariant.2.2.2.2.2 50 _ [] hall⟩

/-! ### C2: shape and content of the planned action bundle -/

/-- The destiny-biased desires ranked descending (the `sorted_desires` of
`plan_agent_actions`). -/
def ranked_desires (ds : ℚ) (a : Agent) : List (String × ℚ) :=
  List.insertionSort desireGE (biased_desire_pairs ds a)

/-- Claim-side definition, following the claim's wording: the big action's
domain is the top-ranked destiny-biased desire domain, or the agent's
`locked_action_domain` when that is set and is one of the six domains. -/
def spec_big_domain (ds : ℚ) (a : Agent) : String :=
  match a.locked_action_domain with
  | some d => if d ∈ domain_keys then d else head_name (ranked_desires ds a)
  | none => head_name (ranked_desires ds a)

/-- Claim-side definition, following the claim's wording: scan the
remaining domains in descending desire order and take the first two
distinct domains not equal to the big domain. -/
def spec_small_domains (ds : ℚ) (a : Agent) : List String :=
  (((ranked_desires ds a).tail.filter (fun p => decide (p.1 ≠ spec_big_domain ds a))).take 2).map
    Prod.fst

theorem small_loop_eq (rem : List (String × ℚ)) :
    ∀ (used : List String) (k : ℕ), (rem.map Prod.fst).Nodup →
      small_loop_names rem used k =
        ((rem.filter (fun p => decide (p.1 ∉ used))).take (2 - k)).map Prod.fst := by
  induction rem with
  | nil => intro used k _; simp [small_loop_names]
  | cons p rest ih =>
    intro used k hnd
    have hmem : p.1 ∉ rest.map Prod.fst := (List.nodup_cons.mp hnd).1
    have hnd' : (rest.map Prod.fst).Nodup := (List.nodup_cons.mp hnd).2
    unfold small_loop_names
    by_cases hk : 2 ≤ k
    · rw [if_pos hk]
      have h0 : 2 - k = 0 := by omega
      simp [h0]
    · rw [if_neg hk]
      by_cases hu : p.1 ∈ used
      · rw [if_pos hu, ih used k hnd']
        simp [List.filter_cons, hu]
      · rw [if_neg hu, ih (p.1 :: used) (k + 1) hnd']
        have hp : (decide (p.1 ∉ used)) = true := by simpa using hu
        have hfeq : rest.filter (fun q => decide (q.1 ∉ p.1 :: used)) =
            rest.filter (fun q => decide (q.1 ∉ used)) := by
          apply List.filter_congr
          intro q hq
          have hqp : q.1 ≠ p.1 := by
            intro he
            exact hmem (he ▸ List.mem_map_of_mem Prod.fst hq)
          simp [List.mem_cons, hqp]
        have hcnt : 2 - k = (2 - (k + 1)) + 1 := by omega
        rw [hfeq, List.filter_cons, hp]
        simp only [if_true]
        rw [hcnt, List.take_succ_cons, List.map_cons]

theorem length_filter_ne_names (l : List (String × ℚ)) (t : String)
    (hnd : (l.map Prod.fst).Nodup) :
    l.length - 1 ≤ (l.filter (fun p => decide (p.1 ≠ t))).length := by
  induction l with
  | nil => simp
  | cons p rest ih =>
    have hmem : p.1 ∉ rest.map Prod.fst := (List.nodup_cons.mp hnd).1
    have hnd' : (rest.map Prod.fst).Nodup := (List.nodup_cons.mp hnd).2
    by_cases hp : p.1 = t
    · have hfall : rest.filter (fun q => decide (q.1 ≠ t)) = rest := by
        apply List.filter_eq_self.mpr
        intro q hq
        have hqp : q.1 ≠ p.1 := by
          intro he
          exact hmem (he ▸ List.mem_map_of_mem Prod.fst hq)
        simp [hp ▸ hqp]
      have hpf : (decide (p.1 ≠ t)) = false := by simp [hp]
      rw [List.filter_cons, hpf]
      simp only [Bool.false_eq_true, if_false, hfall]
      simp only [List.length_cons]
      omega
    · have hpf : (decide (p.1 ≠ t)) = true := by simp [hp]
      rw [List.filter_cons, hpf]
      simp only [if_true, List.length_cons]
      have := ih hnd'
      omega

theorem ranked_desires_names_nodup (ds : ℚ) (a : Agent) :
    ((ranked_desires ds a).map Prod.fst).Nodup := by
  have hperm : List.Perm (ranked_desires ds a) (biased_desire_pairs ds a) :=
    List.perm_insertionSort _ _
  have hmap : List.Perm ((ranked_desires ds a).map Prod.fst) domain_keys := hperm.map Prod.fst
  exact hmap.nodup_iff.mpr (by decide)

theorem ranked_desires_tail_names_nodup (ds : ℚ) (a : Agent) :
    ((ranked_desires ds a).tail.map Prod.fst).Nodup :=
  (ranked_desires_names_nodup ds a).sublist ((List.tail_sublist _).map Prod.fst)

theorem ranked_desires_length (ds : ℚ) (a : Agent) : (ranked_desires ds a).length = 6 :=
  (List.perm_insertionSort _ _).length_eq

theorem small_selection_eq (ds : ℚ) (a : Agent) (top : String) :
    small_loop_names ((ranked_desires ds a).tail) [top] 0 =
      (((ranked_desires ds a).tail.filter (fun p => decide (p.1 ≠ top))).take 2).map Prod.fst ∧
    (small_loop_names ((ranked_desires ds a).tail) [top] 0).length = 2 := by
  have hnd := ranked_desires_tail_names_nodup ds a
  have heq1 := small_loop_eq ((ranked_desires ds a).tail) [top] 0 hnd
  have hfeq : (ranked_desires ds a).tail.filter (fun p => decide (p.1 ∉ [top])) =
      (ranked_desires ds a).tail.filter (fun p => decide (p.1 ≠ top)) := by
    apply List.filter_congr
    intro q _
    simp [List.mem_singleton]
  have hlen5 : (ranked_desires ds a).tail.length = 5 := by
    rw [List.length_tail, ranked_desires_length]
  have hflen := length_filter_ne_names ((ranked_desires ds a).tail) top hnd
  rw [hlen5] at hflen
  constructor
  · rw [heq1, hfeq]
  · rw [heq1, hfeq, List.length_map, List.length_take]
    omega

/--
C2: for every agent (with its six destiny-biased desire values),
`plan_agent_actions` returns exactly 3 actions — one flagged big and two
flagged small; the big action's domain is the top-ranked destiny-biased
desire domain, or the agent's `locked_action_domain` when that is set and
is one of the six domains; the two small actions are the first two
distinct domains not equal to the big domain, scanning the remaining
domains in descending desire order, mapped through the fixed
domain-to-small-action table.  The ranking is a permutation of the six
domains sorted descending by biased desire value.
-/
theorem plan_agent_actions_spec (ds : ℚ) (a : Agent) :
    plan_agent_actions ds a =
      ({ actor_label := a.label, action_type := desire_to_big_action (spec_big_domain ds a),
         is_big := true, target_labels := none } : PlannedAction) ::
        (spec_small_domains ds a).map (fun n =>
          { actor_label := a.label, action_type := desire_to_small_action n,
            is_big := false, target_labels := none }) ∧
    (plan_agent_actions ds a).length = 3 ∧
    (spec_small_domains ds a).length = 2 ∧
    (spec_small_domains ds a).Nodup ∧
    spec_big_domain ds a ∉ spec_small_domains ds a ∧
    (ranked_desires ds a).Pairwise desireGE ∧
    List.Perm (ranked_desires ds a) (biased_desire_pairs ds a) := by
  have hsel := small_selection_eq ds a (spec_big_domain ds a)
  have hmain : plan_agent_actions ds a =
      ({ actor_label := a.label, action_type := desire_to_big_action (spec_big_domain ds a),
         is_big := true, target_labels := none } : PlannedAction) ::
        (spec_small_domains ds a).map (fun n =>
          { actor_label := a.label, action_type := desire_to_small_action n,
            is_big := false, target_labels := none }) := by
    have htop : (match a.locked_action_domain with
        | some d => if d ∈ domain_keys then d
          else head_name (List.insertionSort desireGE (biased_desire_pairs ds a))
        | none => head_name (List.insertionSort desireGE (biased_desire_pairs ds a))) =
        spec_big_domain ds a := rfl
    have hrank : List.insertionSort desireGE (biased_desire_pairs ds a) = ranked_desires ds a := rfl
    have hlen2 : (List.map Prod.fst (List.take 2 (List.filter
        (fun p => decide (p.1 ≠ spec_big_domain ds a)) (ranked_desires ds a).tail))).length = 2 :=
      hsel.1 ▸ hsel.2
    unfold plan_agent_actions
    simp only []
    rw [htop, hrank, hsel.1, hlen2]
    simp [spec_small_domains]
  have hslen : (spec_small_domains ds a).length = 2 := by
    unfold spec_small_domains
    rw [← hsel.1, hsel.2]
  refine ⟨hmain, ?_, hslen, ?_, ?_, ?_, List.perm_insertionSort _ _⟩
  · rw [hmain]
    simp [hslen]
  · exact (ranked_desires_tail_names_nodup ds a).sublist
      (((List.take_sublist _ _).trans (List.filter_sublist _)).map Prod.fst)
  · intro hmem
    unfold spec_small_domains at hmem
    rw [List.mem_map] at hmem
    obtain ⟨p, hp, hfst⟩ := hmem
    have hp' := List.mem_of_mem_take hp
    have hne := List.of_mem_filter hp'
    simp only [decide_eq_true_eq] at hne
    exact hne hfst
  · exact List.sorted_insertionSort desireGE _

/-! ### C4: target assignment -/

theorem filter_orderedInsert_value (x : String × ℚ) (l : List (String × ℚ)) (v : ℚ) :
    (List.orderedInsert desireGE x l).filter (fun p => decide (p.2 = v)) =
      if x.2 = v then x :: l.filter (fun p => decide (p.2 = v))
      else l.filter (fun p => decide (p.2 = v)) := by
  induction l with
  | nil =>
    by_cases hx : x.2 = v <;> simp [List.orderedInsert, List.filter_cons, hx]
  | cons y ys ih =>
    show (if desireGE x y then x :: y :: ys else y :: List.orderedInsert desireGE x ys).filter
        (fun p => decide (p.2 = v)) = _
    by_cases hxy : desireGE x y
    · rw [if_pos hxy]
      by_cases hx : x.2 = v <;> simp [List.filter_cons, hx]
    · rw [if_neg hxy]
      have hlt : x.2 < y.2 := not_le.mp hxy
      by_cases hx : x.2 = v
      · have hyne : y.2 ≠ v := by
          intro hy
          rw [hx, hy] at hlt
          exact lt_irrefl v hlt
        simp [List.filter_cons, hyne, ih, hx]
      · by_cases hy : y.2 = v <;> simp [List.filter_cons, hy, ih, hx]

theorem filter_insertionSort_value (l : List (String × ℚ)) (v : ℚ) :
    (List.insertionSort desireGE l).filter (fun p => decide (p.2 = v)) =
      l.filter (fun p => decide (p.2 = v)) := by
  induction l with
  | nil => rfl
  | cons x xs ih =>
    show (List.orderedInsert desireGE x (List.insertionSort desireGE xs)).filter
        (fun p => decide (p.2 = v)) = _
    rw [filter_orderedInsert_value]
    by_cases hx : x.2 = v <;> simp [List.filter_cons, hx, ih]

theorem length_other_agents (agents : List Agent) (a : Agent) (h1 : a ∈ agents)
    (h2 : (agents.map Agent.label).Nodup) :
    (agents.filter (fun t => decide (t.label ≠ a.label))).length = agents.length - 1 := by
  induction agents with
  | nil => cases h1
  | cons b rest ih =>
    have hmem : b.label ∉ rest.map Agent.label := (List.nodup_cons.mp h2).1
    have h2' : (rest.map Agent.label).Nodup := (List.nodup_cons.mp h2).2
    by_cases hb : b.label = a.label
    · have hall : rest.filter (fun t => decide (t.label ≠ a.label)) = rest := by
        apply List.filter_eq_self.mpr
        intro q hq
        have hqb : q.label ≠ b.label := fun he => hmem (he ▸ List.mem_map_of_mem _ hq)
        simp [hb ▸ hqb]
      have hbf : (decide (b.label ≠ a.label)) = false := by simp [hb]
      rw [List.filter_cons, hbf]
      simp only [Bool.false_eq_true, if_false, hall, List.length_cons]
      omega
    · have ha' : a ∈ rest := by
        rcases List.mem_cons.mp h1 with he | hr
        · exact absurd (by rw [he]) hb
        · exact hr
      have hbt : (decide (b.label ≠ a.label)) = true := by simp [hb]
      rw [List.filter_cons, hbt]
      simp only [if_true, List.length_cons]
      rw [ih ha' h2']
      have hpos : 1 ≤ rest.length := List.length_pos.mpr (List.ne_nil_of_mem ha')
      omega

theorem sorted_scores_labels (agent : Agent) (others : List Agent) (t : ActionType)
    (hothers : ∀ x ∈ others, x.label ≠ agent.label) :
    ∀ x ∈ List.insertionSort desireGE
      (others.map (fun u => (u.label, score_target_for_action agent u t))),
      x.1 ≠ agent.label := by
  intro x hx
  rw [List.mem_insertionSort, List.mem_map] at hx
  obtain ⟨u, hu, rfl⟩ := hx
  exact hothers u hu

theorem sorted_scores_length (agent : Agent) (others : List Agent) (t : ActionType) :
    (List.insertionSort desireGE
      (others.map (fun u => (u.label, score_target_for_action agent u t)))).length =
      others.length := by
  rw [List.length_insertionSort, List.length_map]

/--
C4: `assign_action_targets` never assigns the actor's own label as a
target; for a population of `N` agents (with distinct labels, the actor
among them) the candidate pool has `N - 1` agents; a `BIG_SOCIAL_EVENT`
receives the top `min 3 (N-1)` candidates of the descending-stably-sorted
score ranking, every other social action receives exactly the single
top-scoring candidate when other agents exist and the action list is
returned unchanged when none do (`N = 1`); the ranking is a permutation of
the scored candidates, sorted descending, and ties keep first-encountered
order (elements of equal score are kept in their original order: filtering
the sorted list by any score value returns exactly the original filtered
sublist).  Scoring and selection are pure functions of memory and traits —
the embedding consumes no random draws — so the assignment is
deterministic.
-/
theorem assign_targets_spec :
    (∀ (agent : Agent) (agents : List Agent), agent ∈ agents →
      (agents.map Agent.label).Nodup →
      (agents.filter (fun t => decide (t.label ≠ agent.label))).length = agents.length - 1) ∧
    (∀ (agent : Agent) (agents : List Agent) (planned : List PlannedAction),
      (agents.filter (fun t => decide (t.label ≠ agent.label))).isEmpty = true →
      assign_action_targets agent agents planned = planned) ∧
    (∀ (agent : Agent) (agents : List Agent) (planned : List PlannedAction),
      (agents.filter (fun t => decide (t.label ≠ agent.label))).isEmpty = false →
      assign_action_targets agent agents planned =
        planned.map (assign_one agent (agents.filter (fun t => decide (t.label ≠ agent.label))))) ∧
    (∀ (agent : Agent) (others : List Agent) (act : PlannedAction),
      (act.action_type ∉ interactionActionTypes → assign_one agent others act = act) ∧
      (act.action_type = ActionType.BIG_SOCIAL_EVENT →
        (assign_one agent others act).target_labels =
          some (((List.insertionSort desireGE
            (others.map (fun u => (u.label, score_target_for_action agent u act.action_type)))).take
              (min 3 others.length)).map Prod.fst) ∧
        ∀ ls, (assign_one agent others act).target_labels = some ls →
          ls.length = min 3 others.length) ∧
      (act.action_type ∈ interactionActionTypes →
        act.action_type ≠ ActionType.BIG_SOCIAL_EVENT → others ≠ [] →
        (assign_one agent others act).target_labels =
          some [head_name (List.insertionSort desireGE
            (others.map (fun u => (u.label, score_target_for_action agent u act.action_type))))])) ∧
    (∀ (agent : Agent) (others : List Agent) (act : PlannedAction) (ls : List String),
      (∀ x ∈ others, x.label ≠ agent.label) → act.target_labels = none →
      (assign_one agent others act).target_labels = some ls → agent.label ∉ ls) ∧
    (∀ l : List (String × ℚ),
      (List.insertionSort desireGE l).Pairwise desireGE ∧
      List.Perm (List.insertionSort desireGE l) l ∧
      ∀ v : ℚ, (List.insertionSort desireGE l).filter (fun p => decide (p.2 = v)) =
        l.filter (fun p => decide (p.2 = v))) := by
  refine ⟨fun agent agents h1 h2 => length_other_agents agents agent h1 h2, ?_, ?_, ?_, ?_, ?_⟩
  · intro agent agents planned he
    unfold assign_action_targets
    simp only []
    rw [he]
    rfl
  · intro agent agents planned he
    unfold assign_action_targets
    simp only []
    rw [he]
    rfl
  · intro agent others act
    refine ⟨?_, ?_, ?_⟩
    · intro hni
      unfold assign_one
      rw [if_neg hni]
    · intro hbig
      have hlen := sorted_scores_length agent others act.action_type
      constructor
      · unfold assign_one
        simp only []
        rw [if_pos (by rw [hbig]; decide), if_pos hbig, hlen]
      · intro ls hls
        unfold assign_one at hls
        simp only [] at hls
        rw [if_pos (by rw [hbig]; decide), if_pos hbig] at hls
        simp only [Option.some.injEq] at hls
        subst hls
        rw [List.length_map, List.length_take, hlen]
        omega
    · intro hsoc hnbig hne
      unfold assign_one
      simp only []
      rw [if_pos hsoc, if_neg hnbig]
      have hlen := sorted_scores_length agent others act.action_type
      rcases hs : List.insertionSort desireGE
          (others.map (fun u => (u.label, score_target_for_action agent u act.action_type))) with
        _ | ⟨p, ps⟩
      · exfalso
        rw [hs] at hlen
        exact hne (List.length_eq_zero.mp hlen.symm)
      · rw [hs]
        simp [head_name]
  · intro agent others act ls hothers hnone hsome
    have hlab := sorted_scores_labels agent others act.action_type hothers
    unfold assign_one at hsome
    simp only [] at hsome
    by_cases hsoc : act.action_type ∈ interactionActionTypes
    · rw [if_pos hsoc] at hsome
      by_cases hbig : act.action_type = ActionType.BIG_SOCIAL_EVENT
      · rw [if_pos hbig] at hsome
        simp only [Option.some.injEq] at hsome
        subst hsome
        intro hmem
        rw [List.mem_map] at hmem
        obtain ⟨x, hx, hfst⟩ := hmem
        exact hlab x (List.mem_of_mem_take hx) hfst
      · rw [if_neg hbig] at hsome
        rcases hs : List.insertionSort desireGE
            (others.map (fun u => (u.label, score_target_for_action agent u act.action_type))) with
          _ | ⟨p, ps⟩
        · rw [hs] at hsome
          rw [hnone] at hsome
          cases hsome
        · rw [hs] at hsome
          simp only [Option.some.injEq] at hsome
          subst hsome
          intro hmem
          rw [List.mem_singleton] at hmem
          exact hlab p (hs ▸ List.mem_cons_self _ _) hmem.symm
    · rw [if_neg hsoc] at hsome
      rw [hnone] at hsome
      cases hsome
  · intro l
    exact ⟨List.sorted_insertionSort desireGE l, List.perm_insertionSort desireGE l,
      fun v => filter_insertionSort_value l v⟩

/-- Witness for `assign_targets_spec`: a two-agent world with distinct
labels, a `CASUAL_DATE` action, and the self-exclusion fact. -/
theorem assign_targets_spec_witness :
    (c5Agent ∈ [c5Agent, c6Agent] ∧ (([c5Agent, c6Agent].map Agent.label).Nodup) ∧
      ([c5Agent, c6Agent].filter (fun t => decide (t.label ≠ c5Agent.label))).length =
        [c5Agent, c6Agent].length - 1) ∧
    (∀ ls, (assign_one c5Agent [c6Agent]
        { actor_label := c5Agent.label, action_type := ActionType.CASUAL_DATE,
          is_big := false, target_labels := none }).target_labels = some ls →
      c5Agent.label ∉ ls) := by
  have h1 : c5Agent ∈ [c5Agent, c6Agent] := List.mem_cons_self _ _
  have h2 : (([c5Agent, c6Agent].map Agent.label).Nodup) := by
    simp [c5Agent, c6Agent]
  refine ⟨⟨h1, h2, assign_targets_spec.1 c5Agent [c5Agent, c6Agent] h1 h2⟩, ?_⟩
  intro ls hls
  exact assign_targets_spec.2.2.2.2.1 c5Agent [c6Agent] _ ls
    (by intro x hx; rw [List.mem_singleton] at hx; subst hx; simp [c5Agent, c6Agent])
    rfl hls

/-! ### C8: run_full_simulation history shape -/

theorem advance_month_fields (w : World) :
    (advance_month w).2.total_months = w.total_months ∧
    (advance_month w).2.agents = w.agents ∧
    (w.current_month < w.total_months →
      (advance_month w).2.current_month = w.current_month + 1) := by
  unfold advance_month
  split_ifs with h1 h2
  · exact ⟨rfl, rfl, fun hlt => absurd hlt (not_lt.mpr h1)⟩
  · exact ⟨rfl, rfl, fun _ => rfl⟩
  · exact ⟨rfl, rfl, fun _ => rfl⟩

theorem len_update_first (lbl : String) (f : Agent → Agent) :
    ∀ l : List Agent, (update_agent_first l lbl f).length = l.length := by
  intro l
  induction l with
  | nil => rfl
  | cons a rest ih =>
    unfold update_agent_first
    split_ifs <;> simp [ih]

theorem len_desires_phase (theme : String) (month : ℕ)
    (ovs : List (String × AgentOverride)) :
    ∀ (agents : List Agent) (ev : EventsFeed),
      (desires_phase theme month ovs agents ev).1.length = agents.length := by
  intro agents
  induction agents with
  | nil => intro ev; rfl
  | cons a rest ih =>
    intro ev
    unfold desires_phase
    simp [ih]

theorem len_romantic_updates (c il_luck tl_luck : ℚ) (oq : String) (t : ActionType)
    (time : ℕ) (il tl : String) (agents : List Agent) :
    (romantic_state_updates c il_luck tl_luck oq t time il tl agents).length =
      agents.length := by
  unfold romantic_state_updates
  simp only []
  split_ifs <;> simp [len_update_first]

theorem len_social_updates (c il_luck tl_luck : ℚ) (oq : String) (t : ActionType)
    (time : ℕ) (il tl : String) (agents : List Agent) :
    (social_state_updates c il_luck tl_luck oq t time il tl agents).length =
      agents.length := by
  unfold social_state_updates
  simp only []
  split_ifs <;> simp [len_update_first]

theorem len_apply_pair (ds : ℚ) (time : ℕ) (t : ActionType) (il tl : String)
    (st : OutcomeState) : (apply_pair ds time t il tl st).agents.length = st.agents.length := by
  unfold apply_pair
  cases get_agent_by_label st.agents tl with
  | none => rfl
  | some target =>
    cases get_agent_by_label st.agents il with
    | none => rfl
    | some initiator =>
      simp only []
      split_ifs <;>
        first
        | rfl
        | exact len_romantic_updates _ _ _ _ _ _ _ _ _
        | exact len_social_updates _ _ _ _ _ _ _ _ _

theorem len_apply_pairs (ds : ℚ) (time : ℕ) (t : ActionType) (il : String) :
    ∀ (ts : List String) (st : OutcomeState),
      (apply_pairs ds time t il ts st).agents.length = st.agents.length := by
  intro ts
  induction ts with
  | nil => intro st; rfl
  | cons x rest ih =>
    intro st
    unfold apply_pairs
    rw [ih, len_apply_pair]

theorem len_apply_outcomes (ds : ℚ) (time : ℕ) :
    ∀ (rs : List ResolvedInteraction) (st : OutcomeState),
      (apply_interaction_outcomes ds time rs st).agents.length = st.agents.length := by
  intro rs
  induction rs with
  | nil => intro st; rfl
  | cons ri rest ih =>
    intro st
    unfold apply_interaction_outcomes
    rw [ih]
    by_cases he : ri.accepted_targets.isEmpty
    · rw [if_pos he]
    · rw [if_neg he]
      cases get_agent_by_label st.agents ri.initiator_label with
      | none => rfl
      | some _ => exact len_apply_pairs ds time ri.action_type ri.initiator_label _ st

theorem len_solo_phase (ds : ℚ) (month : ℕ) (amap : List (String × List PlannedAction)) :
    ∀ (agents : List Agent) (r : RNG) (ev : EventsFeed),
      (solo_phase ds month amap agents r ev).1.length = agents.length := by
  intro agents
  induction agents with
  | nil => intro r ev; rfl
  | cons a rest ih =>
    intro r ev
    unfold solo_phase
    simp [ih]

theorem run_month_preserves (ds : ℚ) (w : World) (r : RNG) :
    (run_month ds w r).1.total_months = w.total_months ∧
    (run_month ds w r).1.agents.length = w.agents.length ∧
    (w.current_month < w.total_months →
      (run_month ds w r).1.current_month = w.current_month + 1) := by
  have hf := advance_month_fields w
  unfold run_month
  rcases ham : advance_month w with ⟨th, w2⟩
  rw [ham] at hf
  rcases th with _ | theme
  · exact ⟨hf.1, by rw [hf.2.1], hf.2.2⟩
  · simp only []
    refine ⟨hf.1, ?_, hf.2.2⟩
    simp only [List.length_map, len_solo_phase, len_apply_outcomes, len_desires_phase]
    rw [hf.2.1]

theorem months_of_group (m : ℕ) :
    ∀ l : List Agent, (l.map (snapshot_of m)).map (fun s => s.month) =
      List.replicate l.length m := by
  intro l
  induction l with
  | nil => rfl
  | cons a rest ih => simp [snapshot_of, ih, List.replicate]

theorem sim_loop_months (ds : ℚ) :
    ∀ (fuel : ℕ) (w : World) (r : RNG) (h : List AgentSnapshot),
      w.current_month + fuel = w.total_months →
      (sim_loop ds fuel w r h).2.2.map (fun s => s.month) =
        h.map (fun s => s.month) ++
          (List.range' (w.current_month + 1) fuel).flatMap
            (fun m => List.replicate w.agents.length m) := by
  intro fuel
  induction fuel with
  | zero => intro w r h _; simp [sim_loop]
  | succ fuel ih =>
    intro w r h hinv
    have hlt : w.current_month < w.total_months := by omega
    have hp := run_month_preserves ds w r
    unfold sim_loop
    rw [if_pos hlt]
    have hinv' : (run_month ds w r).1.current_month + fuel = (run_month ds w r).1.total_months := by
      rw [hp.1, hp.2.2 hlt]
      omega
    rw [ih (run_month ds w r).1 (run_month ds w r).2 _ hinv']
    unfold record_world_state
    rw [List.map_append, months_of_group, hp.2.2 hlt, hp.2.1]
    rw [List.range'_succ, List.flatMap_cons, List.append_assoc]

theorem sim_loop_length (ds : ℚ) :
    ∀ (fuel : ℕ) (w : World) (r : RNG) (h : List AgentSnapshot),
      w.current_month + fuel = w.total_months →
      (sim_loop ds fuel w r h).2.2.length = h.length + fuel * w.agents.length := by
  intro fuel
  induction fuel with
  | zero => intro w r h _; simp [sim_loop]
  | succ fuel ih =>
    intro w r h hinv
    have hlt : w.current_month < w.total_months := by omega
    have hp := run_month_preserves ds w r
    unfold sim_loop
    rw [if_pos hlt]
    have hinv' : (run_month ds w r).1.current_month + fuel = (run_month ds w r).1.total_months := by
      rw [hp.1, hp.2.2 hlt]
      omega
    rw [ih (run_month ds w r).1 (run_month ds w r).2 _ hinv']
    unfold record_world_state
    rw [List.length_append, List.length_map, hp.2.1]
    ring

/--
C8: after `init_default_world` (10 agents from the 10 default archetypes,
12-month horizon), `run_full_simulation` records exactly
`total_months + 1` snapshot groups — one at month 0 before the first month
and one after each of months 1..total_months — each group holding exactly
one snapshot per agent, so the history holds `(total_months + 1) * 10`
snapshots and its month column is `[0 × 10, 1 × 10, …, 12 × 10]`.
-/
theorem full_simulation_history (w : World) (r : RNG) :
    (init_default_world w).agents.length = 10 ∧
    (run_full_simulation (init_default_world w) r).2.2.map (fun s => s.month) =
      (List.range ((init_default_world w).total_months + 1)).flatMap
        (fun m => List.replicate 10 m) ∧
    (run_full_simulation (init_default_world w) r).2.2.length =
      ((init_default_world w).total_months + 1) * 10 := by
  have hag : (init_default_world w).agents.length = 10 := rfl
  refine ⟨hag, ?_, ?_⟩
  · unfold run_full_simulation
    simp only []
    rw [sim_loop_months _ _ _ _ _ (by rfl)]
    unfold record_world_state
    simp only [List.nil_append, List.map_append]
    rw [months_of_group]
    show List.replicate 10 0 ++ _ = _
    rw [(by rfl : (init_default_world w).total_months + 1 = 13),
      (by rfl : List.range 13 = 0 :: List.range' 1 12), List.flatMap_cons]
    rfl
  · unfold run_full_simulation
    simp only []
    rw [sim_loop_length _ _ _ _ _ (by rfl)]
    rfl

end Parushini
